import Mathlib

/-!
# SGM776 PIK clock configuration (`product/sgm776/scp_romfw/config_pik_clock.c`)

A shallow embedding of the rate tables, of the element table
`pik_clock_element_table` and of the accessor `pik_clock_get_element_table`,
followed by the properties established about them.

Conventions of the embedding.

* A pointer to one of the file's rate tables is a value of `RateTablePtr`;
  `NULL` is `none`.
* The fourteen `struct mod_pik_clock_dev_config` compound literals are the
  mutable objects of the file. They live in `World.configs`; the address of
  the k-th literal is the number `k`, and a store through an address that
  holds no object is a fault.
* `pik_clock_element_table` itself is `const`: it is a constant of the
  embedding, and only the objects behind its `data` pointers change.
* `World.trace` is a log: the primitives that query the identity module,
  read the configuration number and store into a config object append to it.
* `CLOCK_RATE_SYSPLLCLK` (system_clock.h) is not part of the sources and is a
  parameter of the definitions that use it.
-/

namespace PikClock

/-! ## Framework constants and types -/

/-- Modelled from the spec: fwk_macros.h is missing; frequencies are integers
in hertz, so one megahertz is a million. -/
def FWK_MHZ : Nat := 1000000

/-- Modelled from the spec: fwk_macros.h is missing; `FWK_ARRAY_SIZE` is the
entry count of an array. -/
def FWK_ARRAY_SIZE {α : Type} (array : List α) : Nat := array.length

/-- Modelled from the spec: fwk_status.h is missing; the identity query either
succeeds or fails, and `FWK_SUCCESS` is the status of a query that
succeeded. -/
def FWK_SUCCESS : Int := 0

/-- Modelled from the spec: fwk_id.h is missing; the module identifier is not
used by the accessor. -/
abbrev fwk_id_t := Nat

/-- Clock source selectors used by the rate tables (mod_pik_clock.h). -/
inductive ClockSource where
  | MOD_PIK_CLOCK_MSCLOCK_SOURCE_SYSPLLCLK
  | MOD_PIK_CLOCK_MSCLOCK_SOURCE_PRIVPLLCLK
  | MOD_PIK_CLOCK_CLUSCLK_SOURCE_PLL0
  | MOD_PIK_CLOCK_CLUSCLK_SOURCE_PLL1
  deriving DecidableEq, Repr

/-- Divider selectors used by the rate tables (mod_pik_clock.h). -/
inductive ClockDivider where
  | MOD_PIK_CLOCK_MSCLOCK_DIVIDER_DIV_SYS
  | MOD_PIK_CLOCK_MSCLOCK_DIVIDER_DIV_EXT
  deriving DecidableEq, Repr

/-- The two clock kinds, `enum mod_pik_clock_type`. -/
inductive mod_pik_clock_type where
  | MOD_PIK_CLOCK_TYPE_MULTI_SOURCE
  | MOD_PIK_CLOCK_TYPE_CLUSTER
  deriving DecidableEq, Repr

/-- One operating point, `struct mod_pik_clock_rate`. -/
structure mod_pik_clock_rate where
  rate : Nat
  source : ClockSource
  divider_reg : ClockDivider
  divider : Nat
  deriving DecidableEq, Repr

/-- The three registers of one `CORECLK[k]` block of `PIK_CLUS0`. -/
inductive CoreClkReg where
  | CTRL
  | DIV
  | MOD
  deriving DecidableEq, Repr

/-- The memory-mapped registers whose addresses the element table takes. -/
inductive PikReg where
  | PIK_SYSTEM_NOCMEMCLK_CTRL
  | PIK_SYSTEM_NOCMEMCLK_DIV1
  | PIK_SYSTEM_FCMCLK_CTRL
  | PIK_SYSTEM_FCMCLK_DIV1
  | PIK_SYSTEM_GICCLK_CTRL
  | PIK_SYSTEM_GICCLK_DIV1
  | PIK_SYSTEM_PCLKSCP_CTRL
  | PIK_SYSTEM_PCLKSCP_DIV1
  | PIK_SYSTEM_SYSPERCLK_CTRL
  | PIK_SYSTEM_SYSPERCLK_DIV1
  | PIK_CLUS0_CORECLK (k : Nat) (reg : CoreClkReg)
  | PIK_GPU_GPUCLK_CTRL
  | PIK_GPU_GPUCLK_DIV1
  | PIK_GPU_GPUCLK_DIV2
  deriving DecidableEq, Repr

/-! ## Rate lookup tables -/

/-- Address of one of the eight rate tables of the file. -/
inductive RateTablePtr where
  | rate_table_sys_nocmemclk
  | rate_table_sys_fcmclk
  | rate_table_sys_gicclk
  | rate_table_sys_pclkscp
  | rate_table_sys_sysperclk
  | rate_table_cpu_a55
  | rate_table_cpu_a75
  | rate_table_gpu
  deriving DecidableEq, Repr

def rate_table_sys_nocmemclk (CLOCK_RATE_SYSPLLCLK : Nat) : List mod_pik_clock_rate :=
  [ { rate := 720 * FWK_MHZ,
      source := ClockSource.MOD_PIK_CLOCK_MSCLOCK_SOURCE_SYSPLLCLK,
      divider_reg := ClockDivider.MOD_PIK_CLOCK_MSCLOCK_DIVIDER_DIV_SYS,
      divider := CLOCK_RATE_SYSPLLCLK / (720 * FWK_MHZ) } ]

def rate_table_sys_fcmclk (CLOCK_RATE_SYSPLLCLK : Nat) : List mod_pik_clock_rate :=
  [ { rate := 1800 * FWK_MHZ,
      source := ClockSource.MOD_PIK_CLOCK_MSCLOCK_SOURCE_SYSPLLCLK,
      divider_reg := ClockDivider.MOD_PIK_CLOCK_MSCLOCK_DIVIDER_DIV_SYS,
      divider := CLOCK_RATE_SYSPLLCLK / (1800 * FWK_MHZ) } ]

def rate_table_sys_gicclk (CLOCK_RATE_SYSPLLCLK : Nat) : List mod_pik_clock_rate :=
  [ { rate := 600 * FWK_MHZ,
      source := ClockSource.MOD_PIK_CLOCK_MSCLOCK_SOURCE_SYSPLLCLK,
      divider_reg := ClockDivider.MOD_PIK_CLOCK_MSCLOCK_DIVIDER_DIV_SYS,
      divider := CLOCK_RATE_SYSPLLCLK / (600 * FWK_MHZ) } ]

def rate_table_sys_pclkscp (CLOCK_RATE_SYSPLLCLK : Nat) : List mod_pik_clock_rate :=
  [ { rate := 225 * FWK_MHZ,
      source := ClockSource.MOD_PIK_CLOCK_MSCLOCK_SOURCE_SYSPLLCLK,
      divider_reg := ClockDivider.MOD_PIK_CLOCK_MSCLOCK_DIVIDER_DIV_SYS,
      divider := CLOCK_RATE_SYSPLLCLK / (225 * FWK_MHZ) } ]

def rate_table_sys_sysperclk (CLOCK_RATE_SYSPLLCLK : Nat) : List mod_pik_clock_rate :=
  [ { rate := 225 * FWK_MHZ,
      source := ClockSource.MOD_PIK_CLOCK_MSCLOCK_SOURCE_SYSPLLCLK,
      divider_reg := ClockDivider.MOD_PIK_CLOCK_MSCLOCK_DIVIDER_DIV_SYS,
      divider := CLOCK_RATE_SYSPLLCLK / (225 * FWK_MHZ) } ]

def rate_table_cpu_a55 : List mod_pik_clock_rate :=
  [ { rate := 2200 * FWK_MHZ,
      source := ClockSource.MOD_PIK_CLOCK_CLUSCLK_SOURCE_PLL0,
      divider_reg := ClockDivider.MOD_PIK_CLOCK_MSCLOCK_DIVIDER_DIV_EXT,
      divider := 1 } ]

def rate_table_cpu_a75 : List mod_pik_clock_rate :=
  [ { rate := 2700 * FWK_MHZ,
      source := ClockSource.MOD_PIK_CLOCK_CLUSCLK_SOURCE_PLL1,
      divider_reg := ClockDivider.MOD_PIK_CLOCK_MSCLOCK_DIVIDER_DIV_EXT,
      divider := 1 } ]

def rate_table_gpu : List mod_pik_clock_rate :=
  [ { rate := 800 * FWK_MHZ,
      source := ClockSource.MOD_PIK_CLOCK_MSCLOCK_SOURCE_PRIVPLLCLK,
      divider_reg := ClockDivider.MOD_PIK_CLOCK_MSCLOCK_DIVIDER_DIV_EXT,
      divider := 1 } ]

/-- The array a rate-table pointer refers to. -/
def RateTablePtr.deref (CLOCK_RATE_SYSPLLCLK : Nat) : RateTablePtr → List mod_pik_clock_rate
  | RateTablePtr.rate_table_sys_nocmemclk => PikClock.rate_table_sys_nocmemclk CLOCK_RATE_SYSPLLCLK
  | RateTablePtr.rate_table_sys_fcmclk => PikClock.rate_table_sys_fcmclk CLOCK_RATE_SYSPLLCLK
  | RateTablePtr.rate_table_sys_gicclk => PikClock.rate_table_sys_gicclk CLOCK_RATE_SYSPLLCLK
  | RateTablePtr.rate_table_sys_pclkscp => PikClock.rate_table_sys_pclkscp CLOCK_RATE_SYSPLLCLK
  | RateTablePtr.rate_table_sys_sysperclk => PikClock.rate_table_sys_sysperclk CLOCK_RATE_SYSPLLCLK
  | RateTablePtr.rate_table_cpu_a55 => PikClock.rate_table_cpu_a55
  | RateTablePtr.rate_table_cpu_a75 => PikClock.rate_table_cpu_a75
  | RateTablePtr.rate_table_gpu => PikClock.rate_table_gpu

/-! ## Element table -/

/-- Device configuration, `struct mod_pik_clock_dev_config`. A member that an
initializer of the file leaves out is zero: `none` for a pointer, `0` for
`rate_count`. -/
structure mod_pik_clock_dev_config where
  type : mod_pik_clock_type
  is_group_member : Bool
  control_reg : Option PikReg := none
  modulator_reg : Option PikReg := none
  divsys_reg : Option PikReg := none
  divext_reg : Option PikReg := none
  rate_table : Option RateTablePtr := none
  rate_count : Nat := 0
  initial_rate : Nat
  defer_initialization : Bool
  deriving DecidableEq, Repr

/-- Element description, `struct fwk_element`, with the two members the file
sets. `data` is the address of a config object (`none` is `NULL`). -/
structure fwk_element where
  name : Option String
  data : Option Nat
  deriving DecidableEq, Repr

/-- The compound literals `&((struct mod_pik_clock_dev_config) { ... })` of
`pik_clock_element_table`, in the order of the table, as initialised at load
time. The literal of element k has address k. -/
def pik_clock_dev_configs (CLOCK_RATE_SYSPLLCLK : Nat) : List mod_pik_clock_dev_config :=
  [ { type := mod_pik_clock_type.MOD_PIK_CLOCK_TYPE_MULTI_SOURCE,
      is_group_member := false,
      control_reg := some PikReg.PIK_SYSTEM_NOCMEMCLK_CTRL,
      divsys_reg := some PikReg.PIK_SYSTEM_NOCMEMCLK_DIV1,
      rate_table := some RateTablePtr.rate_table_sys_nocmemclk,
      rate_count := FWK_ARRAY_SIZE (rate_table_sys_nocmemclk CLOCK_RATE_SYSPLLCLK),
      initial_rate := 720 * FWK_MHZ,
      defer_initialization := true },
    { type := mod_pik_clock_type.MOD_PIK_CLOCK_TYPE_MULTI_SOURCE,
      is_group_member := false,
      control_reg := some PikReg.PIK_SYSTEM_FCMCLK_CTRL,
      divsys_reg := some PikReg.PIK_SYSTEM_FCMCLK_DIV1,
      rate_table := some RateTablePtr.rate_table_sys_fcmclk,
      rate_count := FWK_ARRAY_SIZE (rate_table_sys_fcmclk CLOCK_RATE_SYSPLLCLK),
      initial_rate := 1800 * FWK_MHZ,
      defer_initialization := true },
    { type := mod_pik_clock_type.MOD_PIK_CLOCK_TYPE_MULTI_SOURCE,
      is_group_member := false,
      control_reg := some PikReg.PIK_SYSTEM_GICCLK_CTRL,
      divsys_reg := some PikReg.PIK_SYSTEM_GICCLK_DIV1,
      rate_table := some RateTablePtr.rate_table_sys_gicclk,
      rate_count := FWK_ARRAY_SIZE (rate_table_sys_gicclk CLOCK_RATE_SYSPLLCLK),
      initial_rate := 600 * FWK_MHZ,
      defer_initialization := true },
    { type := mod_pik_clock_type.MOD_PIK_CLOCK_TYPE_MULTI_SOURCE,
      is_group_member := false,
      control_reg := some PikReg.PIK_SYSTEM_PCLKSCP_CTRL,
      divsys_reg := some PikReg.PIK_SYSTEM_PCLKSCP_DIV1,
      rate_table := some RateTablePtr.rate_table_sys_pclkscp,
      rate_count := FWK_ARRAY_SIZE (rate_table_sys_pclkscp CLOCK_RATE_SYSPLLCLK),
      initial_rate := 225 * FWK_MHZ,
      defer_initialization := true },
    { type := mod_pik_clock_type.MOD_PIK_CLOCK_TYPE_MULTI_SOURCE,
      is_group_member := false,
      control_reg := some PikReg.PIK_SYSTEM_SYSPERCLK_CTRL,
      divsys_reg := some PikReg.PIK_SYSTEM_SYSPERCLK_DIV1,
      rate_table := some RateTablePtr.rate_table_sys_sysperclk,
      rate_count := FWK_ARRAY_SIZE (rate_table_sys_sysperclk CLOCK_RATE_SYSPLLCLK),
      initial_rate := 225 * FWK_MHZ,
      defer_initialization := true },
    { type := mod_pik_clock_type.MOD_PIK_CLOCK_TYPE_CLUSTER,
      is_group_member := true,
      control_reg := some (PikReg.PIK_CLUS0_CORECLK 0 CoreClkReg.CTRL),
      divext_reg := some (PikReg.PIK_CLUS0_CORECLK 0 CoreClkReg.DIV),
      modulator_reg := some (PikReg.PIK_CLUS0_CORECLK 0 CoreClkReg.MOD),
      initial_rate := 2200 * FWK_MHZ,
      defer_initialization := true },
    { type := mod_pik_clock_type.MOD_PIK_CLOCK_TYPE_CLUSTER,
      is_group_member := true,
      control_reg := some (PikReg.PIK_CLUS0_CORECLK 1 CoreClkReg.CTRL),
      divext_reg := some (PikReg.PIK_CLUS0_CORECLK 1 CoreClkReg.DIV),
      modulator_reg := some (PikReg.PIK_CLUS0_CORECLK 1 CoreClkReg.MOD),
      initial_rate := 2200 * FWK_MHZ,
      defer_initialization := true },
    { type := mod_pik_clock_type.MOD_PIK_CLOCK_TYPE_CLUSTER,
      is_group_member := true,
      control_reg := some (PikReg.PIK_CLUS0_CORECLK 2 CoreClkReg.CTRL),
      divext_reg := some (PikReg.PIK_CLUS0_CORECLK 2 CoreClkReg.DIV),
      modulator_reg := some (PikReg.PIK_CLUS0_CORECLK 2 CoreClkReg.MOD),
      initial_rate := 2200 * FWK_MHZ,
      defer_initialization := true },
    { type := mod_pik_clock_type.MOD_PIK_CLOCK_TYPE_CLUSTER,
      is_group_member := true,
      control_reg := some (PikReg.PIK_CLUS0_CORECLK 3 CoreClkReg.CTRL),
      divext_reg := some (PikReg.PIK_CLUS0_CORECLK 3 CoreClkReg.DIV),
      modulator_reg := some (PikReg.PIK_CLUS0_CORECLK 3 CoreClkReg.MOD),
      initial_rate := 2200 * FWK_MHZ,
      defer_initialization := true },
    { type := mod_pik_clock_type.MOD_PIK_CLOCK_TYPE_CLUSTER,
      is_group_member := true,
      control_reg := some (PikReg.PIK_CLUS0_CORECLK 4 CoreClkReg.CTRL),
      divext_reg := some (PikReg.PIK_CLUS0_CORECLK 4 CoreClkReg.DIV),
      modulator_reg := some (PikReg.PIK_CLUS0_CORECLK 4 CoreClkReg.MOD),
      initial_rate := 2700 * FWK_MHZ,
      defer_initialization := true },
    { type := mod_pik_clock_type.MOD_PIK_CLOCK_TYPE_CLUSTER,
      is_group_member := true,
      control_reg := some (PikReg.PIK_CLUS0_CORECLK 5 CoreClkReg.CTRL),
      divext_reg := some (PikReg.PIK_CLUS0_CORECLK 5 CoreClkReg.DIV),
      modulator_reg := some (PikReg.PIK_CLUS0_CORECLK 5 CoreClkReg.MOD),
      initial_rate := 2700 * FWK_MHZ,
      defer_initialization := true },
    { type := mod_pik_clock_type.MOD_PIK_CLOCK_TYPE_CLUSTER,
      is_group_member := true,
      control_reg := some (PikReg.PIK_CLUS0_CORECLK 6 CoreClkReg.CTRL),
      divext_reg := some (PikReg.PIK_CLUS0_CORECLK 6 CoreClkReg.DIV),
      modulator_reg := some (PikReg.PIK_CLUS0_CORECLK 6 CoreClkReg.MOD),
      initial_rate := 2700 * FWK_MHZ,
      defer_initialization := true },
    { type := mod_pik_clock_type.MOD_PIK_CLOCK_TYPE_CLUSTER,
      is_group_member := true,
      control_reg := some (PikReg.PIK_CLUS0_CORECLK 7 CoreClkReg.CTRL),
      divext_reg := some (PikReg.PIK_CLUS0_CORECLK 7 CoreClkReg.DIV),
      modulator_reg := some (PikReg.PIK_CLUS0_CORECLK 7 CoreClkReg.MOD),
      initial_rate := 2700 * FWK_MHZ,
      defer_initialization := true },
    { type := mod_pik_clock_type.MOD_PIK_CLOCK_TYPE_MULTI_SOURCE,
      is_group_member := true,
      control_reg := some PikReg.PIK_GPU_GPUCLK_CTRL,
      divsys_reg := some PikReg.PIK_GPU_GPUCLK_DIV1,
      divext_reg := some PikReg.PIK_GPU_GPUCLK_DIV2,
      rate_table := some RateTablePtr.rate_table_gpu,
      rate_count := FWK_ARRAY_SIZE rate_table_gpu,
      initial_rate := 800 * FWK_MHZ,
      defer_initialization := true } ]

/-- The constant array `pik_clock_element_table`: fourteen named elements,
each pointing at its own config literal, and the termination description
`{ 0 }`. -/
def pik_clock_element_table : List fwk_element :=
  [ { name := some "SYS_NOCMEMCLK", data := some 0 },
    { name := some "SYS_FCMCLK", data := some 1 },
    { name := some "SYS_GICCLK", data := some 2 },
    { name := some "SYS_PCLKSCP", data := some 3 },
    { name := some "SYS_SYSPERCLK", data := some 4 },
    { name := some "CLUS0_CPU0", data := some 5 },
    { name := some "CLUS0_CPU1", data := some 6 },
    { name := some "CLUS0_CPU2", data := some 7 },
    { name := some "CLUS0_CPU3", data := some 8 },
    { name := some "CLUS0_CPU4", data := some 9 },
    { name := some "CLUS0_CPU5", data := some 10 },
    { name := some "CLUS0_CPU6", data := some 11 },
    { name := some "CLUS0_CPU7", data := some 12 },
    { name := some "GPU", data := some 13 },
    { name := none, data := none } ]

/-! ## Mutable state and the identity collaborator -/

/-- Entries of the log kept in `World.trace`. -/
inductive Event where
  | sid_query
  | read_config_number
  | store (config : Nat)
  deriving DecidableEq, Repr

/-- The mutable state: the config objects behind the `data` pointers and
the log of what has been done so far (oldest entry first). -/
structure World where
  configs : List mod_pik_clock_dev_config
  trace : List Event
  deriving DecidableEq, Repr

/-- The state at load time. -/
def World.initial (CLOCK_RATE_SYSPLLCLK : Nat) : World :=
  { configs := pik_clock_dev_configs CLOCK_RATE_SYSPLLCLK, trace := [] }

/-- Appends an entry to the log. -/
def World.log (w : World) (e : Event) : World :=
  { w with trace := w.trace ++ [e] }

/-- A store through the pointer `config`: `*config = f (*config)`. There is no
result when `config` is not the address of a config object. -/
def World.store (w : World) (config : Nat)
    (f : mod_pik_clock_dev_config → mod_pik_clock_dev_config) : Option World :=
  match w.configs[config]? with
  | none => none
  | some c =>
    some { configs := w.configs.set config (f c), trace := w.trace ++ [Event.store config] }

/-- The object `pik_clock_element_table[element_idx].data` points at, as a
reader of the table sees it in state `w`. -/
def World.descriptor (w : World) (element_idx : Nat) : Option mod_pik_clock_dev_config :=
  match pik_clock_element_table[element_idx]? with
  | none => none
  | some element =>
    match element.data with
    | none => none
    | some config => w.configs[config]?

/-- System information, `struct mod_sid_info`, with the member the file reads. -/
structure mod_sid_info where
  config_number : Nat
  deriving DecidableEq, Repr

/-- What one call of `mod_sid_get_system_info(&system_info)` gives: the
returned status and the value left in `system_info` (`none` when it does not
point at a system information object). -/
structure SidReply where
  status : Int
  system_info : Option mod_sid_info
  deriving DecidableEq, Repr

/-- How a call of the accessor ends: it returns a pointer (`none` is `NULL`,
`some t` the element table `t`), or an invalid pointer is used. Each case
carries the state reached. -/
inductive Outcome where
  | returned (table : Option (List fwk_element)) (w : World)
  | fault (w : World)
  deriving DecidableEq, Repr

/-- The state in which a call ended. -/
def Outcome.world : Outcome → World
  | Outcome.returned _ w => w
  | Outcome.fault w => w

/-- The element table handed back to the caller: `none` when the call returned
`NULL` and also when it did not return. -/
def Outcome.table : Outcome → Option (List fwk_element)
  | Outcome.returned t _ => t
  | Outcome.fault _ => none

/-- Modelled from the spec: fwk_assert.h is missing. The identity query must
succeed; when it fails the accessor propagates the failure to its caller as
"no table" and binds no partition. So `fwk_assert` lets execution go on
exactly when its condition holds, and the accessor hands back `NULL` when it
does not. The result tells whether execution goes on. -/
def fwk_assert (condition : Bool) : Bool :=
  condition

/-! ## The accessor -/

/-- Body of each of the four loops, for the table `rate_table` of
`rate_count` entries:
`config = (struct mod_pik_clock_dev_config *)pik_clock_element_table[element_idx].data;`
`config->rate_table = rate_table; config->rate_count = FWK_ARRAY_SIZE(rate_table);`
The result is `Except.error` with the state reached when a pointer is invalid. -/
def rebind (rate_table : RateTablePtr) (rate_count : Nat) (element_idx : Nat) (w : World) :
    Except World World :=
  match pik_clock_element_table[element_idx]? with
  | none => Except.error w
  | some element =>
    match element.data with
    | none => Except.error w
    | some config =>
      match w.store config (fun c => { c with rate_table := some rate_table }) with
      | none => Except.error w
      | some w1 =>
        match w1.store config (fun c => { c with rate_count := rate_count }) with
        | none => Except.error w1
        | some w2 => Except.ok w2

/-- The iterations of a loop over `element_idx`, by recursion on the number of
iterations left; the loop stops at the first invalid access. -/
def for_iterations (body : Nat → World → Except World World) :
    Nat → Nat → World → Except World World
  | 0, _, w => Except.ok w
  | count + 1, element_idx, w =>
    match body element_idx w with
    | Except.error w1 => Except.error w1
    | Except.ok w1 => for_iterations body count (element_idx + 1) w1

/-- The loop `for (element_idx = first; element_idx < limit; element_idx++) body`.
The body neither assigns `element_idx` nor leaves the loop, so it runs
`limit - first` times, for `element_idx = first, first + 1, ...`. -/
def for_loop (first limit : Nat) (body : Nat → World → Except World World) (w : World) :
    Except World World :=
  for_iterations body (limit - first) first w

/-- The accessor `pik_clock_get_element_table`. `sid` is what the identity
module answers to this call. -/
def pik_clock_get_element_table (sid : SidReply) (_module_id : fwk_id_t) (w : World) :
    Outcome :=
  -- status = mod_sid_get_system_info(&system_info);
  let w0 := w.log Event.sid_query
  -- fwk_assert(status == FWK_SUCCESS);
  if fwk_assert (sid.status == FWK_SUCCESS) = false then
    Outcome.returned none w0
  else
    -- switch (system_info->config_number)
    match sid.system_info with
    | none => Outcome.fault w0
    | some system_info =>
      let w1 := w0.log Event.read_config_number
      match system_info.config_number with
      | 1 | 5 | 7 | 8 =>
        -- CPUs 0-5: Little
        match for_loop 5 11
            (rebind RateTablePtr.rate_table_cpu_a55 (FWK_ARRAY_SIZE rate_table_cpu_a55)) w1 with
        | Except.error w2 => Outcome.fault w2
        | Except.ok w2 =>
          -- CPUs 6-7: Big
          match for_loop 11 13
              (rebind RateTablePtr.rate_table_cpu_a75 (FWK_ARRAY_SIZE rate_table_cpu_a75)) w2 with
          | Except.error w3 => Outcome.fault w3
          | Except.ok w3 => Outcome.returned (some pik_clock_element_table) w3
      | 2 | 3 | 4 | 6 =>
        -- CPUs 0-3: Little
        match for_loop 5 9
            (rebind RateTablePtr.rate_table_cpu_a55 (FWK_ARRAY_SIZE rate_table_cpu_a55)) w1 with
        | Except.error w2 => Outcome.fault w2
        | Except.ok w2 =>
          -- CPUs 4-7: Big
          match for_loop 9 13
              (rebind RateTablePtr.rate_table_cpu_a75 (FWK_ARRAY_SIZE rate_table_cpu_a75)) w2 with
          | Except.error w3 => Outcome.fault w3
          | Except.ok w3 => Outcome.returned (some pik_clock_element_table) w3
      | _ => Outcome.returned none w1

/-! ## Auxiliary definitions used to state intermediate results -/

/-- The effect of one loop iteration on a config object: the table pointer is
replaced and the count becomes the size of a cluster table, which is 1. -/
def bind_rate_table (p : RateTablePtr) (c : mod_pik_clock_dev_config) :
    mod_pik_clock_dev_config :=
  { c with rate_table := some p, rate_count := 1 }

/-- The config objects after a whole pass in which the little cores are the
elements 5 to `small_end - 1` and the big ones the elements `small_end` to 12;
the first argument is the address of the head of the list. -/
def resolved_from (small_end : Nat) :
    Nat → List mod_pik_clock_dev_config → List mod_pik_clock_dev_config
  | _, [] => []
  | i, c :: cs =>
    (if 5 ≤ i ∧ i < small_end then bind_rate_table RateTablePtr.rate_table_cpu_a55 c
     else if small_end ≤ i ∧ i < 13 then bind_rate_table RateTablePtr.rate_table_cpu_a75 c
     else c) :: resolved_from small_end (i + 1) cs

/-- The stores of one pass, in order: two into each of the objects 5 to 12. -/
def pass_events : List Event :=
  [Event.store 5, Event.store 5, Event.store 6, Event.store 6, Event.store 7, Event.store 7,
   Event.store 8, Event.store 8, Event.store 9, Event.store 9, Event.store 10, Event.store 10,
   Event.store 11, Event.store 11, Event.store 12, Event.store 12]

/-- Reference and length agree in a config object: `rate_count` is the
number of entries of the array `rate_table` points at, and 0 for `NULL`. -/
def rate_binding_consistent (CLOCK_RATE_SYSPLLCLK : Nat) (c : mod_pik_clock_dev_config) : Prop :=
  c.rate_count =
    match c.rate_table with
    | none => 0
    | some p => FWK_ARRAY_SIZE (p.deref CLOCK_RATE_SYSPLLCLK)

/-- The states the firmware can be in: the state at load time, and the state
in which any call of the accessor from such a state ends. -/
inductive Reachable (CLOCK_RATE_SYSPLLCLK : Nat) : World → Prop where
  | initial : Reachable CLOCK_RATE_SYSPLLCLK (World.initial CLOCK_RATE_SYSPLLCLK)
  | call (sid : SidReply) (module_id : fwk_id_t) (w : World) :
      Reachable CLOCK_RATE_SYSPLLCLK w →
      Reachable CLOCK_RATE_SYSPLLCLK (pik_clock_get_element_table sid module_id w).world

/-- Modelled from the spec: system_clock.h is missing; the reference frequency
of the system tables, `CLOCK_RATE_SYSPLLCLK`, is declared in the range of
2000 MHz to 3000 MHz. -/
def CLOCK_RATE_SYSPLLCLK_declared (CLOCK_RATE_SYSPLLCLK : Nat) : Prop :=
  2000 * FWK_MHZ ≤ CLOCK_RATE_SYSPLLCLK ∧ CLOCK_RATE_SYSPLLCLK ≤ 3000 * FWK_MHZ

/-- The five tables whose entries divide `CLOCK_RATE_SYSPLLCLK`. -/
def system_rate_tables (CLOCK_RATE_SYSPLLCLK : Nat) : List (List mod_pik_clock_rate) :=
  [rate_table_sys_nocmemclk CLOCK_RATE_SYSPLLCLK, rate_table_sys_fcmclk CLOCK_RATE_SYSPLLCLK,
   rate_table_sys_gicclk CLOCK_RATE_SYSPLLCLK, rate_table_sys_pclkscp CLOCK_RATE_SYSPLLCLK,
   rate_table_sys_sysperclk CLOCK_RATE_SYSPLLCLK]

/-- The three tables whose rate is set by a PLL of their own. -/
def pll_rate_tables : List (List mod_pik_clock_rate) :=
  [rate_table_cpu_a55, rate_table_cpu_a75, rate_table_gpu]

/-- Whether `initial_rate` is the rate of an entry of the table the config
object points at; `false` when it points at none. -/
def initial_rate_is_operating_point (CLOCK_RATE_SYSPLLCLK : Nat)
    (c : mod_pik_clock_dev_config) : Bool :=
  match c.rate_table with
  | none => false
  | some p =>
    ((p.deref CLOCK_RATE_SYSPLLCLK).map mod_pik_clock_rate.rate).contains c.initial_rate

/-! ## Evaluation of the accessor -/

theorem length_fourteen {α : Type} (l : List α) (h : l.length = 14) :
    ∃ c0 c1 c2 c3 c4 c5 c6 c7 c8 c9 c10 c11 c12 c13,
      l = [c0, c1, c2, c3, c4, c5, c6, c7, c8, c9, c10, c11, c12, c13] := by
  match l, h with
  | [c0, c1, c2, c3, c4, c5, c6, c7, c8, c9, c10, c11, c12, c13], _ =>
    exact ⟨c0, c1, c2, c3, c4, c5, c6, c7, c8, c9, c10, c11, c12, c13, rfl⟩

/-- The two loops of a supported case, run on the fourteen config objects. -/
theorem loops_eval (small_end : Nat) (hs : small_end = 9 ∨ small_end = 11)
    (w : World) (hw : w.configs.length = 14) :
    ∃ w1,
      for_loop 5 small_end
          (rebind RateTablePtr.rate_table_cpu_a55 (FWK_ARRAY_SIZE rate_table_cpu_a55)) w
        = Except.ok w1 ∧
      for_loop small_end 13
          (rebind RateTablePtr.rate_table_cpu_a75 (FWK_ARRAY_SIZE rate_table_cpu_a75)) w1
        = Except.ok
            { configs := resolved_from small_end 0 w.configs,
              trace := w.trace ++ pass_events } := by
  obtain ⟨cs, tr⟩ := w
  obtain ⟨c0, c1, c2, c3, c4, c5, c6, c7, c8, c9, c10, c11, c12, c13, rfl⟩ :=
    length_fourteen cs hw
  rcases hs with rfl | rfl <;>
    simp [for_loop, for_iterations, rebind, World.store, pik_clock_element_table,
      resolved_from, bind_rate_table, pass_events, FWK_ARRAY_SIZE, rate_table_cpu_a55,
      rate_table_cpu_a75]

theorem call_query_failed (sid : SidReply) (module_id : fwk_id_t)
    (w : World) (h : fwk_assert (sid.status == FWK_SUCCESS) = false) :
    pik_clock_get_element_table sid module_id w
      = Outcome.returned none (w.log Event.sid_query) := by
  simp [pik_clock_get_element_table, h]

theorem call_no_info (sid : SidReply) (module_id : fwk_id_t)
    (w : World) (h : fwk_assert (sid.status == FWK_SUCCESS) = true)
    (hi : sid.system_info = none) :
    pik_clock_get_element_table sid module_id w
      = Outcome.fault (w.log Event.sid_query) := by
  simp [pik_clock_get_element_table, h, hi]

theorem call_unsupported (sid : SidReply) (module_id : fwk_id_t)
    (w : World) (n : Nat) (h : fwk_assert (sid.status == FWK_SUCCESS) = true)
    (hi : sid.system_info = some ⟨n⟩) (hn : n = 0 ∨ 9 ≤ n) :
    pik_clock_get_element_table sid module_id w
      = Outcome.returned none ((w.log Event.sid_query).log Event.read_config_number) := by
  rcases hn with rfl | hn
  · simp [pik_clock_get_element_table, h, hi]
  · obtain ⟨k, rfl⟩ : ∃ k, n = k + 9 := ⟨n - 9, by omega⟩
    simp [pik_clock_get_element_table, h, hi]

theorem call_six_two (sid : SidReply) (module_id : fwk_id_t)
    (w : World) (n : Nat) (h : fwk_assert (sid.status == FWK_SUCCESS) = true)
    (hi : sid.system_info = some ⟨n⟩) (hn : n = 1 ∨ n = 5 ∨ n = 7 ∨ n = 8)
    (hw : w.configs.length = 14) :
    pik_clock_get_element_table sid module_id w
      = Outcome.returned (some pik_clock_element_table)
          { configs := resolved_from 11 0 w.configs,
            trace := w.trace ++ Event.sid_query :: Event.read_config_number :: pass_events } := by
  obtain ⟨w1, key1, key2⟩ := loops_eval 11 (Or.inr rfl)
    { configs := w.configs, trace := w.trace ++ [Event.sid_query, Event.read_config_number] } hw
  rcases hn with rfl | rfl | rfl | rfl <;>
    simp [pik_clock_get_element_table, h, hi, key1, key2, World.log]

theorem call_four_four (sid : SidReply) (module_id : fwk_id_t)
    (w : World) (n : Nat) (h : fwk_assert (sid.status == FWK_SUCCESS) = true)
    (hi : sid.system_info = some ⟨n⟩) (hn : n = 2 ∨ n = 3 ∨ n = 4 ∨ n = 6)
    (hw : w.configs.length = 14) :
    pik_clock_get_element_table sid module_id w
      = Outcome.returned (some pik_clock_element_table)
          { configs := resolved_from 9 0 w.configs,
            trace := w.trace ++ Event.sid_query :: Event.read_config_number :: pass_events } := by
  obtain ⟨w1, key1, key2⟩ := loops_eval 9 (Or.inl rfl)
    { configs := w.configs, trace := w.trace ++ [Event.sid_query, Event.read_config_number] } hw
  rcases hn with rfl | rfl | rfl | rfl <;>
    simp [pik_clock_get_element_table, h, hi, key1, key2, World.log]

theorem fwk_assert_success :
    fwk_assert ((FWK_SUCCESS : Int) == FWK_SUCCESS) = true := by
  simp [fwk_assert]

theorem descriptor_resolved_inside (small_end : Nat) (hs : small_end = 9 ∨ small_end = 11)
    (cs : List mod_pik_clock_dev_config) (tr tr0 : List Event) (hcs : cs.length = 14)
    (i : Nat) (h5 : 5 ≤ i) (h12 : i ≤ 12) :
    ∃ c, World.descriptor { configs := cs, trace := tr0 } i = some c ∧
      World.descriptor { configs := resolved_from small_end 0 cs, trace := tr } i
        = some (bind_rate_table
            (if i < small_end then RateTablePtr.rate_table_cpu_a55
             else RateTablePtr.rate_table_cpu_a75) c) := by
  obtain ⟨c0, c1, c2, c3, c4, c5, c6, c7, c8, c9, c10, c11, c12, c13, rfl⟩ := length_fourteen cs hcs
  rcases hs with rfl | rfl <;> interval_cases i <;>
    simp [World.descriptor, pik_clock_element_table, resolved_from]

theorem descriptor_resolved_outside (small_end : Nat) (hs : small_end = 9 ∨ small_end = 11)
    (cs : List mod_pik_clock_dev_config) (tr tr0 : List Event) (hcs : cs.length = 14)
    (i : Nat) (h : i < 5 ∨ 12 < i) :
    World.descriptor { configs := resolved_from small_end 0 cs, trace := tr } i
      = World.descriptor { configs := cs, trace := tr0 } i := by
  obtain ⟨c0, c1, c2, c3, c4, c5, c6, c7, c8, c9, c10, c11, c12, c13, rfl⟩ := length_fourteen cs hcs
  rcases h with h | h
  · rcases hs with rfl | rfl <;> interval_cases i <;>
      simp [World.descriptor, pik_clock_element_table, resolved_from]
  · obtain ⟨k, rfl⟩ : ∃ k, i = k + 13 := ⟨i - 13, by omega⟩
    rcases k with _ | _ | k <;> rcases hs with rfl | rfl <;>
      simp [World.descriptor, pik_clock_element_table, resolved_from]

theorem resolved_from_length (small_end : Nat) (cs : List mod_pik_clock_dev_config) (i : Nat) :
    (resolved_from small_end i cs).length = cs.length := by
  induction cs generalizing i with
  | nil => rfl
  | cons c cs ih => simp [resolved_from, ih]

theorem resolved_from_absorb (a b : Nat) (ha : a = 9 ∨ a = 11) (hb : b = 9 ∨ b = 11)
    (cs : List mod_pik_clock_dev_config) (hcs : cs.length = 14) :
    resolved_from b 0 (resolved_from a 0 cs) = resolved_from b 0 cs := by
  obtain ⟨c0, c1, c2, c3, c4, c5, c6, c7, c8, c9, c10, c11, c12, c13, rfl⟩ := length_fourteen cs hcs
  rcases ha with rfl | rfl <;> rcases hb with rfl | rfl <;>
    simp [resolved_from, bind_rate_table]

theorem call_world_cases (sid : SidReply) (module_id : fwk_id_t)
    (w : World) (hw : w.configs.length = 14) :
    (pik_clock_get_element_table sid module_id w).world.configs = w.configs ∨
    ∃ s, (s = 9 ∨ s = 11) ∧
      (pik_clock_get_element_table sid module_id w).world.configs
        = resolved_from s 0 w.configs := by
  by_cases h : fwk_assert (sid.status == FWK_SUCCESS) = false
  · left; rw [call_query_failed _ _ _ h]; rfl
  · have h1 : fwk_assert (sid.status == FWK_SUCCESS) = true := by
      cases hv : fwk_assert (sid.status == FWK_SUCCESS)
      · exact absurd hv h
      · rfl
    cases hi : sid.system_info with
    | none => left; rw [call_no_info _ _ _ h1 hi]; rfl
    | some info =>
      obtain ⟨n⟩ := info
      have hcase : (n = 0 ∨ 9 ≤ n) ∨ (n = 1 ∨ n = 5 ∨ n = 7 ∨ n = 8) ∨
          (n = 2 ∨ n = 3 ∨ n = 4 ∨ n = 6) := by omega
      rcases hcase with h0 | h62 | h44
      · left; rw [call_unsupported _ _ _ n h1 hi h0]; rfl
      · right; exact ⟨11, Or.inr rfl, by rw [call_six_two _ _ _ n h1 hi h62 hw]; rfl⟩
      · right; exact ⟨9, Or.inl rfl, by rw [call_four_four _ _ _ n h1 hi h44 hw]; rfl⟩

theorem call_table (sid : SidReply) (module_id : fwk_id_t)
    (w : World) (t : List fwk_element)
    (ht : (pik_clock_get_element_table sid module_id w).table = some t) :
    t = pik_clock_element_table := by
  unfold pik_clock_get_element_table at ht
  simp only at ht
  split at ht
  · simp [Outcome.table] at ht
  · split at ht
    · simp [Outcome.table] at ht
    · split at ht
      all_goals (try split at ht)
      all_goals (try split at ht)
      all_goals simp [Outcome.table] at ht
      all_goals exact ht.symm

theorem descriptor_congr (w1 w2 : World) (h : w1.configs = w2.configs) (i : Nat) :
    w1.descriptor i = w2.descriptor i := by
  simp [World.descriptor, h]

theorem call_returned_table (sid : SidReply) (module_id : fwk_id_t)
    (w : World) (hw : w.configs.length = 14) (t : List fwk_element) (w1 : World)
    (h : pik_clock_get_element_table sid module_id w
      = Outcome.returned (some t) w1) :
    ∃ s, (s = 9 ∨ s = 11) ∧ w1.configs = resolved_from s 0 w.configs := by
  by_cases ha : fwk_assert (sid.status == FWK_SUCCESS) = false
  · rw [call_query_failed _ _ _ ha] at h; cases h
  · have h1 : fwk_assert (sid.status == FWK_SUCCESS) = true := by
      cases hv : fwk_assert (sid.status == FWK_SUCCESS)
      · exact absurd hv ha
      · rfl
    cases hi : sid.system_info with
    | none => rw [call_no_info _ _ _ h1 hi] at h; cases h
    | some info =>
      obtain ⟨n⟩ := info
      have hcase : (n = 0 ∨ 9 ≤ n) ∨ (n = 1 ∨ n = 5 ∨ n = 7 ∨ n = 8) ∨
          (n = 2 ∨ n = 3 ∨ n = 4 ∨ n = 6) := by omega
      rcases hcase with h0 | h62 | h44
      · rw [call_unsupported _ _ _ n h1 hi h0] at h; cases h
      · rw [call_six_two _ _ _ n h1 hi h62 hw] at h
        cases h
        exact ⟨11, Or.inr rfl, rfl⟩
      · rw [call_four_four _ _ _ n h1 hi h44 hw] at h
        cases h
        exact ⟨9, Or.inl rfl, rfl⟩

theorem consistent_bind_rate_table (S : Nat) (p : RateTablePtr)
    (hp : p = RateTablePtr.rate_table_cpu_a55 ∨ p = RateTablePtr.rate_table_cpu_a75)
    (c : mod_pik_clock_dev_config) :
    rate_binding_consistent S (bind_rate_table p c) := by
  rcases hp with rfl | rfl <;> rfl

/-- The invariant of the config objects carried along the reachable states. -/
theorem reachable_invariant (S : Nat) (w : World) (h : Reachable S w) :
    w.configs.length = 14 ∧
    (∀ c ∈ w.configs, rate_binding_consistent S c) ∧
    (∀ c ∈ w.configs.take 5, 1 ≤ c.rate_count) ∧
    (∀ c ∈ w.configs.drop 13, 1 ≤ c.rate_count) := by
  induction h with
  | initial =>
    simp [World.initial, pik_clock_dev_configs, rate_binding_consistent, RateTablePtr.deref,
      FWK_ARRAY_SIZE, rate_table_sys_nocmemclk, rate_table_sys_fcmclk, rate_table_sys_gicclk,
      rate_table_sys_pclkscp, rate_table_sys_sysperclk, rate_table_gpu]
  | call sid module_id w _ ih =>
    obtain ⟨hw, hc, h5, h13⟩ := ih
    rcases call_world_cases sid module_id w hw with h | ⟨s, hs, h⟩
    · rw [h]; exact ⟨hw, hc, h5, h13⟩
    · rw [h]
      obtain ⟨c0, c1, c2, c3, c4, c5, c6, c7, c8, c9, c10, c11, c12, c13, hcs⟩ :=
        length_fourteen w.configs hw
      rw [hcs] at hc h5 h13 ⊢
      have ha55 := consistent_bind_rate_table S RateTablePtr.rate_table_cpu_a55 (Or.inl rfl)
      have ha75 := consistent_bind_rate_table S RateTablePtr.rate_table_cpu_a75 (Or.inr rfl)
      rcases hs with rfl | rfl <;>
        simp [resolved_from, ha55, ha75] at hc h5 h13 ⊢ <;>
        simp [hc, h5, h13]

theorem names_fin : ∀ i : Fin 14, ∀ j : Fin 14, i ≠ j →
    (pik_clock_element_table[i.val]?).bind fwk_element.name
      ≠ (pik_clock_element_table[j.val]?).bind fwk_element.name ∧
    ((pik_clock_element_table[i.val]?).bind fwk_element.name).isSome = true := by
  decide

theorem dev_configs_length (S : Nat) : (pik_clock_dev_configs S).length = 14 := rfl

/-- The config objects of a reachable state are those of load time, or those
left by one of the two passes over them. -/
theorem reachable_configs (S : Nat) (w : World) (h : Reachable S w) :
    w.configs = pik_clock_dev_configs S ∨
    w.configs = resolved_from 9 0 (pik_clock_dev_configs S) ∨
    w.configs = resolved_from 11 0 (pik_clock_dev_configs S) := by
  induction h with
  | initial => exact Or.inl rfl
  | call sid module_id w hr ih =>
    have hw : w.configs.length = 14 := (reachable_invariant S w hr).1
    have h0 := dev_configs_length S
    rcases call_world_cases sid module_id w hw with h | ⟨s, hs, h⟩
    · rw [h]; exact ih
    · rw [h]
      rcases ih with e | e | e
      · rw [e]
        rcases hs with rfl | rfl
        · exact Or.inr (Or.inl rfl)
        · exact Or.inr (Or.inr rfl)
      · rw [e, resolved_from_absorb 9 s (Or.inl rfl) hs _ h0]
        rcases hs with rfl | rfl
        · exact Or.inr (Or.inl rfl)
        · exact Or.inr (Or.inr rfl)
      · rw [e, resolved_from_absorb 11 s (Or.inr rfl) hs _ h0]
        rcases hs with rfl | rfl
        · exact Or.inr (Or.inl rfl)
        · exact Or.inr (Or.inr rfl)

theorem for_iterations_congr (body body1 : Nat → World → Except World World)
    (count first : Nat)
    (h : ∀ i v, first ≤ i → i < first + count → body i v = body1 i v) (v : World) :
    for_iterations body count first v = for_iterations body1 count first v := by
  induction count generalizing first v with
  | zero => rfl
  | succ k ih =>
    simp only [for_iterations]
    rw [h first v (Nat.le_refl _) (by omega)]
    cases body1 first v with
    | error v1 => rfl
    | ok v1 =>
      exact ih (first + 1) (fun i x h1 h2 => h i x (by omega) (by omega)) v1

theorem store_in_pass_events (i : Nat) :
    Event.store i ∈ Event.sid_query :: Event.read_config_number :: pass_events
      ↔ 5 ≤ i ∧ i < 13 := by
  simp [pass_events]
  omega

/-- What a call appends to the log: the query alone, or the query and the read
of the configuration number, or these and the stores of a pass. -/
theorem call_trace_cases (sid : SidReply) (module_id : fwk_id_t) (w : World)
    (hw : w.configs.length = 14) :
    (pik_clock_get_element_table sid module_id w).world.trace
        = w.trace ++ [Event.sid_query] ∨
    (pik_clock_get_element_table sid module_id w).world.trace
        = w.trace ++ [Event.sid_query, Event.read_config_number] ∨
    (pik_clock_get_element_table sid module_id w).world.trace
        = w.trace ++ Event.sid_query :: Event.read_config_number :: pass_events := by
  by_cases h : fwk_assert (sid.status == FWK_SUCCESS) = false
  · left; rw [call_query_failed _ _ _ h]; rfl
  · have h1 : fwk_assert (sid.status == FWK_SUCCESS) = true := by
      cases hv : fwk_assert (sid.status == FWK_SUCCESS)
      · exact absurd hv h
      · rfl
    cases hi : sid.system_info with
    | none => left; rw [call_no_info _ _ _ h1 hi]; rfl
    | some info =>
      obtain ⟨n⟩ := info
      have hcase : (n = 0 ∨ 9 ≤ n) ∨ (n = 1 ∨ n = 5 ∨ n = 7 ∨ n = 8) ∨
          (n = 2 ∨ n = 3 ∨ n = 4 ∨ n = 6) := by omega
      rcases hcase with h0 | h62 | h44
      · right; left; rw [call_unsupported _ _ _ n h1 hi h0]; simp [Outcome.world, World.log]
      · right; right; rw [call_six_two _ _ _ n h1 hi h62 hw]; rfl
      · right; right; rw [call_four_four _ _ _ n h1 hi h44 hw]; rfl

theorem call_configs_length (sid : SidReply) (module_id : fwk_id_t) (w : World)
    (hw : w.configs.length = 14) :
    (pik_clock_get_element_table sid module_id w).world.configs.length = 14 := by
  rcases call_world_cases sid module_id w hw with h | ⟨s, _, h⟩
  · rw [h]; exact hw
  · rw [h, resolved_from_length]; exact hw

theorem bind_rate_table_members (p : RateTablePtr) (c d : mod_pik_clock_dev_config)
    (h : d.type = c.type ∧ d.is_group_member = c.is_group_member ∧
      d.control_reg = c.control_reg ∧ d.modulator_reg = c.modulator_reg ∧
      d.divsys_reg = c.divsys_reg ∧ d.divext_reg = c.divext_reg ∧
      d.initial_rate = c.initial_rate ∧
      d.defer_initialization = c.defer_initialization) :
    bind_rate_table p d = bind_rate_table p c := by
  cases c
  cases d
  simp_all [bind_rate_table]

/-- A pass leaves the same config objects in two states that differ in nothing
but the rate_table and rate_count of the elements 5..12. -/
theorem resolved_from_same (s : Nat) (hs : s = 9 ∨ s = 11) (w v : World)
    (hw : w.configs.length = 14) (hv : v.configs.length = 14)
    (hout : ∀ i, i < 5 ∨ 12 < i → v.descriptor i = w.descriptor i)
    (hin : ∀ i, 5 ≤ i → i ≤ 12 →
      ∃ c d, w.descriptor i = some c ∧ v.descriptor i = some d ∧
        d.type = c.type ∧ d.is_group_member = c.is_group_member ∧
        d.control_reg = c.control_reg ∧ d.modulator_reg = c.modulator_reg ∧
        d.divsys_reg = c.divsys_reg ∧ d.divext_reg = c.divext_reg ∧
        d.initial_rate = c.initial_rate ∧
        d.defer_initialization = c.defer_initialization) :
    resolved_from s 0 v.configs = resolved_from s 0 w.configs := by
  obtain ⟨cs, tr⟩ := w
  obtain ⟨ds, tr1⟩ := v
  obtain ⟨c0, c1, c2, c3, c4, c5, c6, c7, c8, c9, c10, c11, c12, c13, rfl⟩ :=
    length_fourteen cs hw
  obtain ⟨d0, d1, d2, d3, d4, d5, d6, d7, d8, d9, d10, d11, d12, d13, rfl⟩ :=
    length_fourteen ds hv
  have o0 := hout 0 (Or.inl (by decide))
  have o1 := hout 1 (Or.inl (by decide))
  have o2 := hout 2 (Or.inl (by decide))
  have o3 := hout 3 (Or.inl (by decide))
  have o4 := hout 4 (Or.inl (by decide))
  have o13 := hout 13 (Or.inr (by decide))
  have i5 := hin 5 (by decide) (by decide)
  have i6 := hin 6 (by decide) (by decide)
  have i7 := hin 7 (by decide) (by decide)
  have i8 := hin 8 (by decide) (by decide)
  have i9 := hin 9 (by decide) (by decide)
  have i10 := hin 10 (by decide) (by decide)
  have i11 := hin 11 (by decide) (by decide)
  have i12 := hin 12 (by decide) (by decide)
  simp [World.descriptor, pik_clock_element_table] at o0 o1 o2 o3 o4 o13
  simp [World.descriptor, pik_clock_element_table] at i5 i6 i7 i8
  simp [World.descriptor, pik_clock_element_table] at i9 i10 i11 i12
  have b5 := fun p => bind_rate_table_members p c5 d5 i5
  have b6 := fun p => bind_rate_table_members p c6 d6 i6
  have b7 := fun p => bind_rate_table_members p c7 d7 i7
  have b8 := fun p => bind_rate_table_members p c8 d8 i8
  have b9 := fun p => bind_rate_table_members p c9 d9 i9
  have b10 := fun p => bind_rate_table_members p c10 d10 i10
  have b11 := fun p => bind_rate_table_members p c11 d11 i11
  have b12 := fun p => bind_rate_table_members p c12 d12 i12
  rcases hs with rfl | rfl <;>
    simp [resolved_from, o0, o1, o2, o3, o4, o13, b5, b6, b7, b8, b9, b10, b11, b12]

/-! ## The claims -/

/-- C1: when the identity query succeeds with a configuration number n in 1..8,
the accessor returns the element table and afterwards each of the elements
5..12 has a rate table, the little or the big one, and a rate count of 1. -/
theorem C1_known_variant_binds_every_cluster_core (module_id : fwk_id_t)
    (w : World) (n : Nat) (hw : w.configs.length = 14) (hn : 1 ≤ n ∧ n ≤ 8) :
    ∃ w1,
      pik_clock_get_element_table
          { status := FWK_SUCCESS, system_info := some { config_number := n } } module_id w
        = Outcome.returned (some pik_clock_element_table) w1 ∧
      ∀ i, 5 ≤ i → i ≤ 12 →
        ∃ c, w1.descriptor i = some c ∧
          (c.rate_table = some RateTablePtr.rate_table_cpu_a55 ∨
            c.rate_table = some RateTablePtr.rate_table_cpu_a75) ∧
          c.rate_count = 1 := by
  have ha := fwk_assert_success
  obtain ⟨h1, h8⟩ := hn
  have hcase : (n = 1 ∨ n = 5 ∨ n = 7 ∨ n = 8) ∨ (n = 2 ∨ n = 3 ∨ n = 4 ∨ n = 6) := by omega
  rcases hcase with h62 | h44
  · refine ⟨_, call_six_two _ module_id w n ha rfl h62 hw, ?_⟩
    intro i h5 h12
    obtain ⟨c, -, hc⟩ := descriptor_resolved_inside 11 (Or.inr rfl) w.configs
      (w.trace ++ Event.sid_query :: Event.read_config_number :: pass_events) [] hw i h5 h12
    refine ⟨_, hc, ?_, rfl⟩
    by_cases hi : i < 11 <;> simp [hi, bind_rate_table]
  · refine ⟨_, call_four_four _ module_id w n ha rfl h44 hw, ?_⟩
    intro i h5 h12
    obtain ⟨c, -, hc⟩ := descriptor_resolved_inside 9 (Or.inl rfl) w.configs
      (w.trace ++ Event.sid_query :: Event.read_config_number :: pass_events) [] hw i h5 h12
    refine ⟨_, hc, ?_, rfl⟩
    by_cases hi : i < 9 <;> simp [hi, bind_rate_table]

theorem C1_known_variant_binds_every_cluster_core_witness :
    (World.initial (2000 * FWK_MHZ)).configs.length = 14 ∧ (1 ≤ 7 ∧ 7 ≤ 8) ∧
    ∃ w1,
      pik_clock_get_element_table
          { status := FWK_SUCCESS, system_info := some { config_number := 7 } } 0
          (World.initial (2000 * FWK_MHZ))
        = Outcome.returned (some pik_clock_element_table) w1 ∧
      ∀ i, 5 ≤ i → i ≤ 12 →
        ∃ c, w1.descriptor i = some c ∧
          (c.rate_table = some RateTablePtr.rate_table_cpu_a55 ∨
            c.rate_table = some RateTablePtr.rate_table_cpu_a75) ∧
          c.rate_count = 1 :=
  ⟨by decide, by decide,
    C1_known_variant_binds_every_cluster_core 0 (World.initial (2000 * FWK_MHZ)) 7
      (by decide) (by decide)⟩

/-- C2: for a configuration number in {1, 5, 7, 8} the elements 5..10 end up
bound to rate_table_cpu_a55, whose single entry is 2200 MHz, and the elements
11..12 to rate_table_cpu_a75, whose single entry is 2700 MHz. -/
theorem C2_six_little_two_big (module_id : fwk_id_t)
    (w : World) (n : Nat) (hw : w.configs.length = 14) (hn : n = 1 ∨ n = 5 ∨ n = 7 ∨ n = 8) :
    ∃ w1,
      pik_clock_get_element_table
          { status := FWK_SUCCESS, system_info := some { config_number := n } } module_id w
        = Outcome.returned (some pik_clock_element_table) w1 ∧
      (∀ i, 5 ≤ i → i ≤ 10 →
        ∃ c, w1.descriptor i = some c ∧
          c.rate_table = some RateTablePtr.rate_table_cpu_a55 ∧
          c.rate_count = FWK_ARRAY_SIZE rate_table_cpu_a55) ∧
      (∀ i, 11 ≤ i → i ≤ 12 →
        ∃ c, w1.descriptor i = some c ∧
          c.rate_table = some RateTablePtr.rate_table_cpu_a75 ∧
          c.rate_count = FWK_ARRAY_SIZE rate_table_cpu_a75) ∧
      (∀ s, (RateTablePtr.rate_table_cpu_a55.deref s).map mod_pik_clock_rate.rate
          = [2200 * 1000000]) ∧
      (∀ s, (RateTablePtr.rate_table_cpu_a75.deref s).map mod_pik_clock_rate.rate
          = [2700 * 1000000]) := by
  refine ⟨_, call_six_two _ module_id w n fwk_assert_success rfl hn hw,
    ?_, ?_, ?_, ?_⟩
  · intro i h5 h10
    obtain ⟨c, -, hc⟩ := descriptor_resolved_inside 11 (Or.inr rfl) w.configs
      (w.trace ++ Event.sid_query :: Event.read_config_number :: pass_events) [] hw i h5
      (by omega)
    refine ⟨_, hc, ?_, rfl⟩
    have hi : i < 11 := by omega
    simp [hi, bind_rate_table]
  · intro i h11 h12
    obtain ⟨c, -, hc⟩ := descriptor_resolved_inside 11 (Or.inr rfl) w.configs
      (w.trace ++ Event.sid_query :: Event.read_config_number :: pass_events) [] hw i
      (by omega) h12
    refine ⟨_, hc, ?_, rfl⟩
    have hi : ¬ i < 11 := by omega
    simp [hi, bind_rate_table]
  · intro s; rfl
  · intro s; rfl

theorem C2_six_little_two_big_witness :
    (World.initial (2000 * FWK_MHZ)).configs.length = 14 ∧ (1 = 1 ∨ 1 = 5 ∨ 1 = 7 ∨ 1 = 8) ∧
    ∃ w1,
      pik_clock_get_element_table
          { status := FWK_SUCCESS, system_info := some { config_number := 1 } } 0
          (World.initial (2000 * FWK_MHZ))
        = Outcome.returned (some pik_clock_element_table) w1 ∧
      (∀ i, 5 ≤ i → i ≤ 10 →
        ∃ c, w1.descriptor i = some c ∧
          c.rate_table = some RateTablePtr.rate_table_cpu_a55 ∧
          c.rate_count = FWK_ARRAY_SIZE rate_table_cpu_a55) ∧
      (∀ i, 11 ≤ i → i ≤ 12 →
        ∃ c, w1.descriptor i = some c ∧
          c.rate_table = some RateTablePtr.rate_table_cpu_a75 ∧
          c.rate_count = FWK_ARRAY_SIZE rate_table_cpu_a75) ∧
      (∀ s, (RateTablePtr.rate_table_cpu_a55.deref s).map mod_pik_clock_rate.rate
          = [2200 * 1000000]) ∧
      (∀ s, (RateTablePtr.rate_table_cpu_a75.deref s).map mod_pik_clock_rate.rate
          = [2700 * 1000000]) :=
  ⟨by decide, by decide,
    C2_six_little_two_big 0 (World.initial (2000 * FWK_MHZ)) 1 (by decide) (by decide)⟩

/-- C3: for a configuration number in {2, 3, 4, 6} the elements 5..8 end up
bound to rate_table_cpu_a55 (2200 MHz) and the elements 9..12 to
rate_table_cpu_a75 (2700 MHz). -/
theorem C3_four_little_four_big (module_id : fwk_id_t)
    (w : World) (n : Nat) (hw : w.configs.length = 14) (hn : n = 2 ∨ n = 3 ∨ n = 4 ∨ n = 6) :
    ∃ w1,
      pik_clock_get_element_table
          { status := FWK_SUCCESS, system_info := some { config_number := n } } module_id w
        = Outcome.returned (some pik_clock_element_table) w1 ∧
      (∀ i, 5 ≤ i → i ≤ 8 →
        ∃ c, w1.descriptor i = some c ∧
          c.rate_table = some RateTablePtr.rate_table_cpu_a55 ∧
          c.rate_count = FWK_ARRAY_SIZE rate_table_cpu_a55) ∧
      (∀ i, 9 ≤ i → i ≤ 12 →
        ∃ c, w1.descriptor i = some c ∧
          c.rate_table = some RateTablePtr.rate_table_cpu_a75 ∧
          c.rate_count = FWK_ARRAY_SIZE rate_table_cpu_a75) ∧
      (∀ s, (RateTablePtr.rate_table_cpu_a55.deref s).map mod_pik_clock_rate.rate
          = [2200 * 1000000]) ∧
      (∀ s, (RateTablePtr.rate_table_cpu_a75.deref s).map mod_pik_clock_rate.rate
          = [2700 * 1000000]) := by
  refine ⟨_, call_four_four _ module_id w n fwk_assert_success rfl hn hw,
    ?_, ?_, ?_, ?_⟩
  · intro i h5 h8
    obtain ⟨c, -, hc⟩ := descriptor_resolved_inside 9 (Or.inl rfl) w.configs
      (w.trace ++ Event.sid_query :: Event.read_config_number :: pass_events) [] hw i h5
      (by omega)
    refine ⟨_, hc, ?_, rfl⟩
    have hi : i < 9 := by omega
    simp [hi, bind_rate_table]
  · intro i h9 h12
    obtain ⟨c, -, hc⟩ := descriptor_resolved_inside 9 (Or.inl rfl) w.configs
      (w.trace ++ Event.sid_query :: Event.read_config_number :: pass_events) [] hw i
      (by omega) h12
    refine ⟨_, hc, ?_, rfl⟩
    have hi : ¬ i < 9 := by omega
    simp [hi, bind_rate_table]
  · intro s; rfl
  · intro s; rfl

theorem C3_four_little_four_big_witness :
    (World.initial (2000 * FWK_MHZ)).configs.length = 14 ∧ (3 = 2 ∨ 3 = 3 ∨ 3 = 4 ∨ 3 = 6) ∧
    ∃ w1,
      pik_clock_get_element_table
          { status := FWK_SUCCESS, system_info := some { config_number := 3 } } 0
          (World.initial (2000 * FWK_MHZ))
        = Outcome.returned (some pik_clock_element_table) w1 ∧
      (∀ i, 5 ≤ i → i ≤ 8 →
        ∃ c, w1.descriptor i = some c ∧
          c.rate_table = some RateTablePtr.rate_table_cpu_a55 ∧
          c.rate_count = FWK_ARRAY_SIZE rate_table_cpu_a55) ∧
      (∀ i, 9 ≤ i → i ≤ 12 →
        ∃ c, w1.descriptor i = some c ∧
          c.rate_table = some RateTablePtr.rate_table_cpu_a75 ∧
          c.rate_count = FWK_ARRAY_SIZE rate_table_cpu_a75) ∧
      (∀ s, (RateTablePtr.rate_table_cpu_a55.deref s).map mod_pik_clock_rate.rate
          = [2200 * 1000000]) ∧
      (∀ s, (RateTablePtr.rate_table_cpu_a75.deref s).map mod_pik_clock_rate.rate
          = [2700 * 1000000]) :=
  ⟨by decide, by decide,
    C3_four_little_four_big 0 (World.initial (2000 * FWK_MHZ)) 3 (by decide) (by decide)⟩

/-- C4: for a configuration number outside 1..8 the accessor returns NULL and
every config object, hence every descriptor, is what it was before the call. -/
theorem C4_unknown_variant_returns_null (module_id : fwk_id_t)
    (w : World) (n : Nat) (hn : ¬ (1 ≤ n ∧ n ≤ 8)) :
    ∃ w1,
      pik_clock_get_element_table
          { status := FWK_SUCCESS, system_info := some { config_number := n } } module_id w
        = Outcome.returned none w1 ∧
      w1.configs = w.configs ∧
      ∀ i, w1.descriptor i = w.descriptor i := by
  refine ⟨_, call_unsupported _ module_id w n fwk_assert_success rfl
    (by omega), rfl, ?_⟩
  intro i
  rfl

theorem C4_unknown_variant_returns_null_witness :
    ¬ (1 ≤ 42 ∧ 42 ≤ 8) ∧
    ∃ w1,
      pik_clock_get_element_table
          { status := FWK_SUCCESS, system_info := some { config_number := 42 } } 0
          (World.initial (2000 * FWK_MHZ))
        = Outcome.returned none w1 ∧
      w1.configs = (World.initial (2000 * FWK_MHZ)).configs ∧
      ∀ i, w1.descriptor i = (World.initial (2000 * FWK_MHZ)).descriptor i :=
  ⟨by decide,
    C4_unknown_variant_returns_null 0 (World.initial (2000 * FWK_MHZ)) 42 (by decide)⟩

/-- C5: whatever the identity module answers, the accessor leaves the config
objects of the elements 0..4 and 13 (and the absent one of the sentinel, 14)
as they were, changes no member of the objects of the elements 5..12 other
than rate_table and rate_count, and hands back no table other than the
constant pik_clock_element_table, whose names are part of the constant. -/
theorem C5_only_cluster_rate_bindings_change (sid : SidReply)
    (module_id : fwk_id_t) (w : World) (hw : w.configs.length = 14) :
    (∀ i, i < 5 ∨ 12 < i →
      (pik_clock_get_element_table sid module_id w).world.descriptor i
        = w.descriptor i) ∧
    (∀ i, 5 ≤ i → i ≤ 12 →
      ∃ c c1, w.descriptor i = some c ∧
        (pik_clock_get_element_table sid module_id w).world.descriptor i
          = some c1 ∧
        c1.type = c.type ∧ c1.is_group_member = c.is_group_member ∧
        c1.control_reg = c.control_reg ∧ c1.modulator_reg = c.modulator_reg ∧
        c1.divsys_reg = c.divsys_reg ∧ c1.divext_reg = c.divext_reg ∧
        c1.initial_rate = c.initial_rate ∧
        c1.defer_initialization = c.defer_initialization) ∧
    (∀ t, (pik_clock_get_element_table sid module_id w).table = some t →
      t = pik_clock_element_table) := by
  refine ⟨?_, ?_, call_table sid module_id w⟩
  · intro i hi
    rcases call_world_cases sid module_id w hw with h | ⟨s, hs, h⟩
    · exact descriptor_congr _ _ h i
    · rw [descriptor_congr _ { configs := resolved_from s 0 w.configs, trace := [] } h i]
      exact descriptor_resolved_outside s hs w.configs [] w.trace hw i hi
  · intro i h5 h12
    rcases call_world_cases sid module_id w hw with h | ⟨s, hs, h⟩
    · obtain ⟨c, hc, -⟩ := descriptor_resolved_inside 9 (Or.inl rfl) w.configs [] w.trace hw
        i h5 h12
      refine ⟨c, c, hc, ?_, rfl, rfl, rfl, rfl, rfl, rfl, rfl, rfl⟩
      rw [descriptor_congr _ w h i]
      exact hc
    · obtain ⟨c, hc, hc1⟩ := descriptor_resolved_inside s hs w.configs [] w.trace hw i h5 h12
      refine ⟨c, bind_rate_table (if i < s then RateTablePtr.rate_table_cpu_a55
        else RateTablePtr.rate_table_cpu_a75) c, hc, ?_, rfl, rfl, rfl, rfl, rfl, rfl, rfl, rfl⟩
      rw [descriptor_congr _ { configs := resolved_from s 0 w.configs, trace := [] } h i]
      exact hc1

theorem C5_only_cluster_rate_bindings_change_witness :
    (World.initial (2000 * FWK_MHZ)).configs.length = 14 ∧
    (∀ i, i < 5 ∨ 12 < i →
      (pik_clock_get_element_table
          { status := FWK_SUCCESS, system_info := some { config_number := 1 } } 0
          (World.initial (2000 * FWK_MHZ))).world.descriptor i
        = (World.initial (2000 * FWK_MHZ)).descriptor i) ∧
    (∀ i, 5 ≤ i → i ≤ 12 →
      ∃ c c1, (World.initial (2000 * FWK_MHZ)).descriptor i = some c ∧
        (pik_clock_get_element_table
          { status := FWK_SUCCESS, system_info := some { config_number := 1 } } 0
          (World.initial (2000 * FWK_MHZ))).world.descriptor i = some c1 ∧
        c1.type = c.type ∧ c1.is_group_member = c.is_group_member ∧
        c1.control_reg = c.control_reg ∧ c1.modulator_reg = c.modulator_reg ∧
        c1.divsys_reg = c.divsys_reg ∧ c1.divext_reg = c.divext_reg ∧
        c1.initial_rate = c.initial_rate ∧
        c1.defer_initialization = c.defer_initialization) ∧
    (∀ t, (pik_clock_get_element_table
          { status := FWK_SUCCESS, system_info := some { config_number := 1 } } 0
          (World.initial (2000 * FWK_MHZ))).table = some t →
      t = pik_clock_element_table) :=
  ⟨by decide,
    C5_only_cluster_rate_bindings_change
      { status := FWK_SUCCESS, system_info := some { config_number := 1 } } 0
      (World.initial (2000 * FWK_MHZ)) (by decide)⟩

/-- C6: with the same configuration number, a second call returns what the
first returned and leaves every config object as the first call left it. -/
theorem C6_second_call_changes_nothing (module_id : fwk_id_t)
    (w : World) (n : Nat) (hw : w.configs.length = 14) :
    ∃ t w1 w2,
      pik_clock_get_element_table
          { status := FWK_SUCCESS, system_info := some { config_number := n } } module_id w
        = Outcome.returned t w1 ∧
      pik_clock_get_element_table
          { status := FWK_SUCCESS, system_info := some { config_number := n } } module_id w1
        = Outcome.returned t w2 ∧
      w2.configs = w1.configs ∧
      ∀ i, w2.descriptor i = w1.descriptor i := by
  have ha := fwk_assert_success
  have hcase : (n = 0 ∨ 9 ≤ n) ∨ (n = 1 ∨ n = 5 ∨ n = 7 ∨ n = 8) ∨
      (n = 2 ∨ n = 3 ∨ n = 4 ∨ n = 6) := by omega
  rcases hcase with h0 | h62 | h44
  · exact ⟨_, _, _, call_unsupported _ module_id w n ha rfl h0,
      call_unsupported _ module_id _ n ha rfl h0, rfl, fun _ => rfl⟩
  · have hl : (resolved_from 11 0 w.configs).length = 14 := by
      rw [resolved_from_length]; exact hw
    have hidem := resolved_from_absorb 11 11 (Or.inr rfl) (Or.inr rfl) w.configs hw
    exact ⟨_, _, _, call_six_two _ module_id w n ha rfl h62 hw,
      call_six_two _ module_id _ n ha rfl h62 hl, hidem,
      fun i => descriptor_congr _ _ hidem i⟩
  · have hl : (resolved_from 9 0 w.configs).length = 14 := by
      rw [resolved_from_length]; exact hw
    have hidem := resolved_from_absorb 9 9 (Or.inl rfl) (Or.inl rfl) w.configs hw
    exact ⟨_, _, _, call_four_four _ module_id w n ha rfl h44 hw,
      call_four_four _ module_id _ n ha rfl h44 hl, hidem,
      fun i => descriptor_congr _ _ hidem i⟩

theorem C6_second_call_changes_nothing_witness :
    (World.initial (2000 * FWK_MHZ)).configs.length = 14 ∧
    ∃ t w1 w2,
      pik_clock_get_element_table
          { status := FWK_SUCCESS, system_info := some { config_number := 6 } } 0
          (World.initial (2000 * FWK_MHZ))
        = Outcome.returned t w1 ∧
      pik_clock_get_element_table
          { status := FWK_SUCCESS, system_info := some { config_number := 6 } } 0 w1
        = Outcome.returned t w2 ∧
      w2.configs = w1.configs ∧
      ∀ i, w2.descriptor i = w1.descriptor i :=
  ⟨by decide,
    C6_second_call_changes_nothing 0 (World.initial (2000 * FWK_MHZ)) 6 (by decide)⟩

/-- C7, as the code has it: there is no run-once guard. Every call, from any
state and so the first as much as any later one, queries the identity module
exactly once, before anything else and whatever it answers. When the query
succeeds the call reads the configuration number once; for a number in 1..8
it then does the whole rebinding pass, two stores into each of the config
objects 5..12, and returns the element table; for any other number it stores
nothing and returns NULL. -/
theorem C7_every_call_resolves_again (module_id : fwk_id_t) (w : World)
    (hw : w.configs.length = 14) :
    (∀ sid, ∃ ev,
      (pik_clock_get_element_table sid module_id w).world.trace = w.trace ++ ev ∧
      ev.head? = some Event.sid_query ∧ ev.count Event.sid_query = 1 ∧
      (pik_clock_get_element_table sid module_id w).world.configs.length = 14) ∧
    (∀ n, ∃ w1,
      pik_clock_get_element_table
          { status := FWK_SUCCESS, system_info := some { config_number := n } } module_id w
        = Outcome.returned (if 1 ≤ n ∧ n ≤ 8 then some pik_clock_element_table else none) w1 ∧
      w1.configs.length = 14 ∧
      w1.trace = w.trace ++ [Event.sid_query, Event.read_config_number] ++
        (if 1 ≤ n ∧ n ≤ 8 then
          [Event.store 5, Event.store 5, Event.store 6, Event.store 6,
           Event.store 7, Event.store 7, Event.store 8, Event.store 8,
           Event.store 9, Event.store 9, Event.store 10, Event.store 10,
           Event.store 11, Event.store 11, Event.store 12, Event.store 12]
         else [])) := by
  constructor
  · intro sid
    have hl := call_configs_length sid module_id w hw
    rcases call_trace_cases sid module_id w hw with h | h | h
    · exact ⟨_, h, rfl, by decide, hl⟩
    · exact ⟨_, h, rfl, by decide, hl⟩
    · exact ⟨_, h, rfl, by decide, hl⟩
  · intro n
    have ha := fwk_assert_success
    have hcase : (n = 0 ∨ 9 ≤ n) ∨ (n = 1 ∨ n = 5 ∨ n = 7 ∨ n = 8) ∨
        (n = 2 ∨ n = 3 ∨ n = 4 ∨ n = 6) := by omega
    rcases hcase with h0 | h62 | h44
    · have hn : ¬ (1 ≤ n ∧ n ≤ 8) := by omega
      refine ⟨(w.log Event.sid_query).log Event.read_config_number, ?_, ?_, ?_⟩
      · rw [call_unsupported _ module_id w n ha rfl h0, if_neg hn]
      · exact hw
      · simp [World.log, hn]
    · have hn : 1 ≤ n ∧ n ≤ 8 := by omega
      refine ⟨{ configs := resolved_from 11 0 w.configs,
                trace := w.trace ++
                  Event.sid_query :: Event.read_config_number :: pass_events }, ?_, ?_, ?_⟩
      · rw [call_six_two _ module_id w n ha rfl h62 hw, if_pos hn]
      · simp [resolved_from_length, hw]
      · simp [hn, pass_events]
    · have hn : 1 ≤ n ∧ n ≤ 8 := by omega
      refine ⟨{ configs := resolved_from 9 0 w.configs,
                trace := w.trace ++
                  Event.sid_query :: Event.read_config_number :: pass_events }, ?_, ?_, ?_⟩
      · rw [call_four_four _ module_id w n ha rfl h44 hw, if_pos hn]
      · simp [resolved_from_length, hw]
      · simp [hn, pass_events]

theorem C7_every_call_resolves_again_witness :
    (World.initial (2000 * FWK_MHZ)).configs.length = 14 ∧
    (∀ sid, ∃ ev,
      (pik_clock_get_element_table sid 0 (World.initial (2000 * FWK_MHZ))).world.trace
        = (World.initial (2000 * FWK_MHZ)).trace ++ ev ∧
      ev.head? = some Event.sid_query ∧ ev.count Event.sid_query = 1 ∧
      (pik_clock_get_element_table sid 0
        (World.initial (2000 * FWK_MHZ))).world.configs.length = 14) ∧
    (∀ n, ∃ w1,
      pik_clock_get_element_table
          { status := FWK_SUCCESS, system_info := some { config_number := n } } 0
          (World.initial (2000 * FWK_MHZ))
        = Outcome.returned (if 1 ≤ n ∧ n ≤ 8 then some pik_clock_element_table else none) w1 ∧
      w1.configs.length = 14 ∧
      w1.trace = (World.initial (2000 * FWK_MHZ)).trace ++
        [Event.sid_query, Event.read_config_number] ++
        (if 1 ≤ n ∧ n ≤ 8 then
          [Event.store 5, Event.store 5, Event.store 6, Event.store 6,
           Event.store 7, Event.store 7, Event.store 8, Event.store 8,
           Event.store 9, Event.store 9, Event.store 10, Event.store 10,
           Event.store 11, Event.store 11, Event.store 12, Event.store 12]
         else [])) :=
  ⟨by decide, C7_every_call_resolves_again 0 (World.initial (2000 * FWK_MHZ)) (by decide)⟩

/-- C7 as stated fails: in two calls in a row from the load-time state with
configuration number 1, the second call queries the identity module again
(the log then holds two queries) and stores again into the objects 5..12. -/
theorem C7_second_call_queries_and_stores :
    (pik_clock_get_element_table
        { status := FWK_SUCCESS, system_info := some { config_number := 1 } } 0
        (pik_clock_get_element_table
          { status := FWK_SUCCESS, system_info := some { config_number := 1 } } 0
          (World.initial (2000 * FWK_MHZ))).world).world.trace
      = (pik_clock_get_element_table
          { status := FWK_SUCCESS, system_info := some { config_number := 1 } } 0
          (World.initial (2000 * FWK_MHZ))).world.trace ++
        [Event.sid_query, Event.read_config_number,
         Event.store 5, Event.store 5, Event.store 6, Event.store 6,
         Event.store 7, Event.store 7, Event.store 8, Event.store 8,
         Event.store 9, Event.store 9, Event.store 10, Event.store 10,
         Event.store 11, Event.store 11, Event.store 12, Event.store 12] ∧
    (pik_clock_get_element_table
        { status := FWK_SUCCESS, system_info := some { config_number := 1 } } 0
        (pik_clock_get_element_table
          { status := FWK_SUCCESS, system_info := some { config_number := 1 } } 0
          (World.initial (2000 * FWK_MHZ))).world).world.trace.count Event.sid_query = 2 := by
  decide

/-- C9: in every reachable state, that is at load time and after any calls of
the accessor whatever the identity module answered, each descriptor's
rate_count is the number of entries of the table its rate_table points at (0
for NULL); and when a call from such a state returns the element table, each
of the 14 descriptors has a rate_count of at least 1. -/
theorem C9_reference_and_length_agree (S : Nat) (w : World) (h : Reachable S w) :
    (∀ i c, w.descriptor i = some c → rate_binding_consistent S c) ∧
    (∀ sid module_id t w1,
      pik_clock_get_element_table sid module_id w
        = Outcome.returned (some t) w1 →
      ∀ i, i < 14 → ∃ c, w1.descriptor i = some c ∧ 1 ≤ c.rate_count) := by
  obtain ⟨hw, hc, h5, h13⟩ := reachable_invariant S w h
  constructor
  · intro i c hi
    apply hc
    unfold World.descriptor at hi
    split at hi
    · cases hi
    · split at hi
      · cases hi
      · exact List.getElem?_mem hi
  · intro sid module_id t w1 hcall i hi
    obtain ⟨s, hs, hres⟩ := call_returned_table sid module_id w hw t w1 hcall
    rw [descriptor_congr w1 { configs := resolved_from s 0 w.configs, trace := [] } hres i]
    obtain ⟨c0, c1, c2, c3, c4, c5, c6, c7, c8, c9, c10, c11, c12, c13, hcs⟩ :=
      length_fourteen w.configs hw
    rw [hcs] at h5 h13 ⊢
    simp at h5 h13
    rcases hs with rfl | rfl <;> interval_cases i <;>
      simp [World.descriptor, pik_clock_element_table, resolved_from, bind_rate_table, h5, h13]

theorem C9_reference_and_length_agree_witness :
    (∀ i c, (World.initial (2000 * FWK_MHZ)).descriptor i = some c →
      rate_binding_consistent (2000 * FWK_MHZ) c) ∧
    (∀ sid module_id t w1,
      pik_clock_get_element_table sid module_id (World.initial (2000 * FWK_MHZ))
        = Outcome.returned (some t) w1 →
      ∀ i, i < 14 → ∃ c, w1.descriptor i = some c ∧ 1 ≤ c.rate_count) :=
  C9_reference_and_length_agree (2000 * FWK_MHZ) (World.initial (2000 * FWK_MHZ))
    Reachable.initial

/-- C10: any two of the fourteen elements 0..13 of pik_clock_element_table have
names, and different ones; and a table the accessor hands back is this
table. -/
theorem C10_names_are_unique :
    (∀ i j, i < 14 → j < 14 → i ≠ j →
      ∃ a b, (pik_clock_element_table[i]?).bind fwk_element.name = some a ∧
        (pik_clock_element_table[j]?).bind fwk_element.name = some b ∧ a ≠ b) ∧
    (∀ sid module_id w t,
      (pik_clock_get_element_table sid module_id w).table = some t →
      t = pik_clock_element_table) := by
  refine ⟨?_, fun sid module_id w t => call_table sid module_id w t⟩
  intro i j hi hj hij
  obtain ⟨hne, hsi⟩ := names_fin ⟨i, hi⟩ ⟨j, hj⟩ (fun h => hij (congrArg Fin.val h))
  obtain ⟨-, hsj⟩ := names_fin ⟨j, hj⟩ ⟨i, hi⟩ (fun h => hij (congrArg Fin.val h).symm)
  obtain ⟨a, ha⟩ := Option.isSome_iff_exists.mp hsi
  obtain ⟨b, hb⟩ := Option.isSome_iff_exists.mp hsj
  refine ⟨a, b, ha, hb, ?_⟩
  intro hab
  apply hne
  rw [ha, hb, hab]

/-- C11, as the code has it: the dividers of the cluster and GPU tables are 1,
and the divider of each system table entry is the truncated quotient of
CLOCK_RATE_SYSPLLCLK by the rate, so that the reference lies from
rate * divider up to, and not including, rate * (divider + 1). The dividers
are positive from 1800 MHz on. All five products are exact only for a positive multiple of
3600 MHz; anywhere in the declared range the 1800 MHz entry leaves a
remainder. -/
theorem C11_dividers_are_truncated_quotients (S : Nat) :
    (∀ t ∈ pll_rate_tables, ∀ e ∈ t, e.divider = 1) ∧
    (∀ t ∈ system_rate_tables S, ∀ e ∈ t,
      e.divider = S / e.rate ∧ e.rate * e.divider ≤ S ∧ S < e.rate * (e.divider + 1)) ∧
    (1800 * FWK_MHZ ≤ S → ∀ t ∈ system_rate_tables S, ∀ e ∈ t, 0 < e.divider) ∧
    ((∀ t ∈ system_rate_tables S, ∀ e ∈ t, 0 < e.divider ∧ S = e.rate * e.divider) ↔
      (0 < S ∧ 3600 * FWK_MHZ ∣ S)) ∧
    (CLOCK_RATE_SYSPLLCLK_declared S →
      ∃ e ∈ rate_table_sys_fcmclk S, S ≠ e.rate * e.divider) := by
  refine ⟨?_, ?_, ?_, ?_, ?_⟩
  · simp [pll_rate_tables, rate_table_cpu_a55, rate_table_cpu_a75, rate_table_gpu]
  · simp [system_rate_tables, rate_table_sys_nocmemclk, rate_table_sys_fcmclk,
      rate_table_sys_gicclk, rate_table_sys_pclkscp, rate_table_sys_sysperclk, FWK_MHZ]
    omega
  · simp [system_rate_tables, rate_table_sys_nocmemclk, rate_table_sys_fcmclk,
      rate_table_sys_gicclk, rate_table_sys_pclkscp, rate_table_sys_sysperclk, FWK_MHZ]
    omega
  · simp [system_rate_tables, rate_table_sys_nocmemclk, rate_table_sys_fcmclk,
      rate_table_sys_gicclk, rate_table_sys_pclkscp, rate_table_sys_sysperclk, FWK_MHZ]
    omega
  · simp [CLOCK_RATE_SYSPLLCLK_declared, rate_table_sys_fcmclk, FWK_MHZ]
    omega

/-- C11 as stated fails: with a reference of 2000 MHz, in the declared range,
the 720 MHz entry stores the divider 2, and 720 MHz * 2 is not 2000 MHz. -/
theorem C11_nocmemclk_divider_is_inexact :
    CLOCK_RATE_SYSPLLCLK_declared (2000 * FWK_MHZ) ∧
    (rate_table_sys_nocmemclk (2000 * FWK_MHZ)).map mod_pik_clock_rate.divider = [2] ∧
    ¬ (∀ e ∈ rate_table_sys_nocmemclk (2000 * FWK_MHZ),
        2000 * FWK_MHZ = e.rate * e.divider) ∧
    ¬ (2000 * FWK_MHZ) % (720 * FWK_MHZ) = 0 := by
  refine ⟨⟨Nat.le_refl _, by decide⟩, by decide, by decide, by decide⟩

/-- C12 fails on the code for the identifiers 1, 5, 7 and 8: after the call
from the load-time state, CLUS0_CPU4 and CLUS0_CPU5 (elements 9 and 10) point
at rate_table_cpu_a55, whose only rate is 2200 MHz, with an initial_rate of
2700 MHz. They are the only descriptors whose initial_rate is not in their
table, and for the identifiers 2, 3, 4 and 6 there is none. -/
theorem C12_little_cpu4_cpu5_keep_the_big_initial_rate :
    ((pik_clock_get_element_table
        { status := FWK_SUCCESS, system_info := some { config_number := 1 } } 0
        (World.initial (2000 * FWK_MHZ))).world.descriptor 9).map
          (fun c => (c.rate_table, c.initial_rate))
      = some (some RateTablePtr.rate_table_cpu_a55, 2700 * 1000000) ∧
    ((pik_clock_get_element_table
        { status := FWK_SUCCESS, system_info := some { config_number := 1 } } 0
        (World.initial (2000 * FWK_MHZ))).world.descriptor 10).map
          (fun c => (c.rate_table, c.initial_rate))
      = some (some RateTablePtr.rate_table_cpu_a55, 2700 * 1000000) ∧
    (RateTablePtr.rate_table_cpu_a55.deref (2000 * FWK_MHZ)).map mod_pik_clock_rate.rate
      = [2200 * 1000000] ∧
    [1, 5, 7, 8].map (fun n => (List.range 14).filter (fun i =>
        ((pik_clock_get_element_table
          { status := FWK_SUCCESS, system_info := some { config_number := n } } 0
          (World.initial (2000 * FWK_MHZ))).world.descriptor i).map
            (initial_rate_is_operating_point (2000 * FWK_MHZ)) != some true))
      = [[9, 10], [9, 10], [9, 10], [9, 10]] ∧
    [2, 3, 4, 6].map (fun n => (List.range 14).filter (fun i =>
        ((pik_clock_get_element_table
          { status := FWK_SUCCESS, system_info := some { config_number := n } } 0
          (World.initial (2000 * FWK_MHZ))).world.descriptor i).map
            (initial_rate_is_operating_point (2000 * FWK_MHZ)) != some true))
      = [[], [], [], []] := by
  refine ⟨by decide, by decide, by decide, by decide, by decide⟩

/-- C14: in every reachable state each of the descriptors 0..13 has a
control_reg; the multi-source ones, which are 0..4 and 13, have a divsys_reg
and no modulator_reg; the cluster ones, which are 5..12, have no divsys_reg
and their control_reg, divext_reg and modulator_reg are the CTRL, DIV and MOD
registers of CORECLK[i - 5]. -/
theorem C14_register_bindings_follow_the_type (S : Nat) (w : World) (hr : Reachable S w) :
    ∀ i, i < 14 →
      ∃ c, w.descriptor i = some c ∧ c.control_reg.isSome = true ∧
        (c.type = mod_pik_clock_type.MOD_PIK_CLOCK_TYPE_MULTI_SOURCE ↔ i < 5 ∨ i = 13) ∧
        (c.type = mod_pik_clock_type.MOD_PIK_CLOCK_TYPE_CLUSTER ↔ 5 ≤ i ∧ i ≤ 12) ∧
        (c.type = mod_pik_clock_type.MOD_PIK_CLOCK_TYPE_MULTI_SOURCE →
          c.divsys_reg.isSome = true ∧ c.modulator_reg = none) ∧
        (c.type = mod_pik_clock_type.MOD_PIK_CLOCK_TYPE_CLUSTER →
          c.divsys_reg = none ∧
          c.control_reg = some (PikReg.PIK_CLUS0_CORECLK (i - 5) CoreClkReg.CTRL) ∧
          c.divext_reg = some (PikReg.PIK_CLUS0_CORECLK (i - 5) CoreClkReg.DIV) ∧
          c.modulator_reg = some (PikReg.PIK_CLUS0_CORECLK (i - 5) CoreClkReg.MOD)) := by
  intro i hi
  rcases reachable_configs S w hr with e | e | e <;>
    rw [descriptor_congr w { configs := _, trace := [] } e i] <;>
    interval_cases i <;>
    simp [World.descriptor, pik_clock_element_table, pik_clock_dev_configs,
      resolved_from, bind_rate_table]

theorem C14_register_bindings_follow_the_type_witness :
    Reachable (2000 * FWK_MHZ) (World.initial (2000 * FWK_MHZ)) ∧
    ∀ i, i < 14 →
      ∃ c, (World.initial (2000 * FWK_MHZ)).descriptor i = some c ∧
        c.control_reg.isSome = true ∧
        (c.type = mod_pik_clock_type.MOD_PIK_CLOCK_TYPE_MULTI_SOURCE ↔ i < 5 ∨ i = 13) ∧
        (c.type = mod_pik_clock_type.MOD_PIK_CLOCK_TYPE_CLUSTER ↔ 5 ≤ i ∧ i ≤ 12) ∧
        (c.type = mod_pik_clock_type.MOD_PIK_CLOCK_TYPE_MULTI_SOURCE →
          c.divsys_reg.isSome = true ∧ c.modulator_reg = none) ∧
        (c.type = mod_pik_clock_type.MOD_PIK_CLOCK_TYPE_CLUSTER →
          c.divsys_reg = none ∧
          c.control_reg = some (PikReg.PIK_CLUS0_CORECLK (i - 5) CoreClkReg.CTRL) ∧
          c.divext_reg = some (PikReg.PIK_CLUS0_CORECLK (i - 5) CoreClkReg.DIV) ∧
          c.modulator_reg = some (PikReg.PIK_CLUS0_CORECLK (i - 5) CoreClkReg.MOD)) :=
  ⟨Reachable.initial,
    C14_register_bindings_follow_the_type (2000 * FWK_MHZ) (World.initial (2000 * FWK_MHZ))
      Reachable.initial⟩

/-- C15: pik_clock_element_table has 15 entries; the entries 0..13 have a name
and a data pointer; entry 14 is the termination description, with neither;
the table the accessor hands back is this constant table, so holds 14
descriptors before the first entry without a name; and in every reachable
state each of the 14 data pointers points at a config object. -/
theorem C15_table_is_sentinel_terminated :
    pik_clock_element_table.length = 15 ∧
    (∀ i, i < 14 →
      ∃ e, pik_clock_element_table[i]? = some e ∧ e.name.isSome = true ∧
        e.data.isSome = true) ∧
    pik_clock_element_table[14]? = some { name := none, data := none } ∧
    (∀ sid module_id w t,
      (pik_clock_get_element_table sid module_id w).table = some t →
      t = pik_clock_element_table ∧
        (t.takeWhile (fun e => e.name.isSome)).length = 14) ∧
    (∀ S w, Reachable S w → ∀ i, i < 14 → (w.descriptor i).isSome = true) := by
  refine ⟨rfl, ?_, rfl, ?_, ?_⟩
  · intro i hi
    interval_cases i <;> simp [pik_clock_element_table]
  · intro sid module_id w t ht
    have h := call_table sid module_id w t ht
    subst h
    exact ⟨rfl, by decide⟩
  · intro S w hr i hi
    have hw : w.configs.length = 14 := (reachable_invariant S w hr).1
    obtain ⟨c0, c1, c2, c3, c4, c5, c6, c7, c8, c9, c10, c11, c12, c13, hcs⟩ :=
      length_fourteen w.configs hw
    interval_cases i <;> simp [World.descriptor, pik_clock_element_table, hcs]

/-- C16: rate_table_cpu_a55 and rate_table_cpu_a75 have one entry each, with
divider 1 on the external divider, the first from PLL0 at 2200 MHz and the
second from PLL1 at 2700 MHz; and when a call from a reachable state returns
the element table, every descriptor of type cluster points at a table of a
single entry whose divider is 1, with a rate_count of 1. -/
theorem C16_cluster_tables_divide_by_one (S : Nat) (w : World) (hr : Reachable S w) :
    rate_table_cpu_a55.map (fun e => (e.rate, e.source, e.divider_reg, e.divider))
      = [(2200 * 1000000, ClockSource.MOD_PIK_CLOCK_CLUSCLK_SOURCE_PLL0,
          ClockDivider.MOD_PIK_CLOCK_MSCLOCK_DIVIDER_DIV_EXT, 1)] ∧
    rate_table_cpu_a75.map (fun e => (e.rate, e.source, e.divider_reg, e.divider))
      = [(2700 * 1000000, ClockSource.MOD_PIK_CLOCK_CLUSCLK_SOURCE_PLL1,
          ClockDivider.MOD_PIK_CLOCK_MSCLOCK_DIVIDER_DIV_EXT, 1)] ∧
    (∀ sid module_id t w1,
      pik_clock_get_element_table sid module_id w
        = Outcome.returned (some t) w1 →
      ∀ i c, w1.descriptor i = some c →
        c.type = mod_pik_clock_type.MOD_PIK_CLOCK_TYPE_CLUSTER →
        ∃ p e, c.rate_table = some p ∧ c.rate_count = 1 ∧ p.deref S = [e] ∧
          e.divider = 1 ∧
          e.divider_reg = ClockDivider.MOD_PIK_CLOCK_MSCLOCK_DIVIDER_DIV_EXT) := by
  refine ⟨rfl, rfl, ?_⟩
  intro sid module_id t w1 hcall i c hc hty
  have hw : w.configs.length = 14 := (reachable_invariant S w hr).1
  obtain ⟨s, hs, hres⟩ := call_returned_table sid module_id w hw t w1 hcall
  have h0 := dev_configs_length S
  have hres1 : w1.configs = resolved_from s 0 (pik_clock_dev_configs S) := by
    rw [hres]
    rcases reachable_configs S w hr with e | e | e
    · rw [e]
    · rw [e, resolved_from_absorb 9 s (Or.inl rfl) hs _ h0]
    · rw [e, resolved_from_absorb 11 s (Or.inr rfl) hs _ h0]
  rw [descriptor_congr w1 { configs := _, trace := [] } hres1 i] at hc
  have hi : i < 14 := by
    by_contra hge
    obtain ⟨k, rfl⟩ : ∃ k, i = k + 14 := ⟨i - 14, by omega⟩
    rcases k with _ | k <;> simp [World.descriptor, pik_clock_element_table] at hc
  rcases hs with rfl | rfl <;> interval_cases i <;>
    simp [World.descriptor, pik_clock_element_table, pik_clock_dev_configs, resolved_from,
      bind_rate_table] at hc <;>
    subst hc <;>
    first
      | (simp at hty; done)
      | exact ⟨RateTablePtr.rate_table_cpu_a55, _, rfl, rfl, rfl, rfl, rfl⟩
      | exact ⟨RateTablePtr.rate_table_cpu_a75, _, rfl, rfl, rfl, rfl, rfl⟩

theorem C16_cluster_tables_divide_by_one_witness :
    Reachable (2000 * FWK_MHZ) (World.initial (2000 * FWK_MHZ)) ∧
    rate_table_cpu_a55.map (fun e => (e.rate, e.source, e.divider_reg, e.divider))
      = [(2200 * 1000000, ClockSource.MOD_PIK_CLOCK_CLUSCLK_SOURCE_PLL0,
          ClockDivider.MOD_PIK_CLOCK_MSCLOCK_DIVIDER_DIV_EXT, 1)] ∧
    rate_table_cpu_a75.map (fun e => (e.rate, e.source, e.divider_reg, e.divider))
      = [(2700 * 1000000, ClockSource.MOD_PIK_CLOCK_CLUSCLK_SOURCE_PLL1,
          ClockDivider.MOD_PIK_CLOCK_MSCLOCK_DIVIDER_DIV_EXT, 1)] ∧
    (∀ sid module_id t w1,
      pik_clock_get_element_table sid module_id
          (World.initial (2000 * FWK_MHZ))
        = Outcome.returned (some t) w1 →
      ∀ i c, w1.descriptor i = some c →
        c.type = mod_pik_clock_type.MOD_PIK_CLOCK_TYPE_CLUSTER →
        ∃ p e, c.rate_table = some p ∧ c.rate_count = 1 ∧
          p.deref (2000 * FWK_MHZ) = [e] ∧ e.divider = 1 ∧
          e.divider_reg = ClockDivider.MOD_PIK_CLOCK_MSCLOCK_DIVIDER_DIV_EXT) :=
  ⟨Reachable.initial,
    C16_cluster_tables_divide_by_one (2000 * FWK_MHZ) (World.initial (2000 * FWK_MHZ))
      Reachable.initial⟩

/-- C17: for identifiers a and b in 1..8 and any state holding the 14 config
objects, a call with a followed by a call with b leaves the config objects as
a call with b alone does, and two identifiers of the same group, {1, 5, 7, 8}
or {2, 3, 4, 6}, leave the same config objects. The call with b stores into
the config object of every element 5..12 and leaves it with a rate_count of 1
and the table that b and the index alone decide. So the outcome does not
depend on the earlier bindings: from any other state that differs in nothing
but the rate_table and rate_count of the elements 5..12, the call with b
leaves the same config objects. -/
theorem C17_last_resolution_wins (module_id : fwk_id_t) (w : World)
    (a b : Nat) (hw : w.configs.length = 14) (ha : 1 ≤ a ∧ a ≤ 8) (hb : 1 ≤ b ∧ b ≤ 8) :
    ∃ wa wab wb ev,
      pik_clock_get_element_table
          { status := FWK_SUCCESS, system_info := some { config_number := a } } module_id w
        = Outcome.returned (some pik_clock_element_table) wa ∧
      pik_clock_get_element_table
          { status := FWK_SUCCESS, system_info := some { config_number := b } } module_id wa
        = Outcome.returned (some pik_clock_element_table) wab ∧
      pik_clock_get_element_table
          { status := FWK_SUCCESS, system_info := some { config_number := b } } module_id w
        = Outcome.returned (some pik_clock_element_table) wb ∧
      wab.configs = wb.configs ∧
      (∀ i, wab.descriptor i = wb.descriptor i) ∧
      (((a = 1 ∨ a = 5 ∨ a = 7 ∨ a = 8) ∧ (b = 1 ∨ b = 5 ∨ b = 7 ∨ b = 8)) ∨
        ((a = 2 ∨ a = 3 ∨ a = 4 ∨ a = 6) ∧ (b = 2 ∨ b = 3 ∨ b = 4 ∨ b = 6)) →
        wa.configs = wb.configs) ∧
      wb.trace = w.trace ++ ev ∧
      (∀ i, 5 ≤ i → i ≤ 12 →
        Event.store i ∈ ev ∧
        ∃ c, wb.descriptor i = some c ∧ c.rate_count = 1 ∧
          c.rate_table = some
            (if i < (if b = 1 ∨ b = 5 ∨ b = 7 ∨ b = 8 then 11 else 9)
              then RateTablePtr.rate_table_cpu_a55
              else RateTablePtr.rate_table_cpu_a75)) ∧
      (∀ v : World, v.configs.length = 14 →
        (∀ i, i < 5 ∨ 12 < i → v.descriptor i = w.descriptor i) →
        (∀ i, 5 ≤ i → i ≤ 12 →
          ∃ c d, w.descriptor i = some c ∧ v.descriptor i = some d ∧
            d.type = c.type ∧ d.is_group_member = c.is_group_member ∧
            d.control_reg = c.control_reg ∧ d.modulator_reg = c.modulator_reg ∧
            d.divsys_reg = c.divsys_reg ∧ d.divext_reg = c.divext_reg ∧
            d.initial_rate = c.initial_rate ∧
            d.defer_initialization = c.defer_initialization) →
        ∃ wv,
          pik_clock_get_element_table
              { status := FWK_SUCCESS, system_info := some { config_number := b } }
              module_id v
            = Outcome.returned (some pik_clock_element_table) wv ∧
          wv.configs = wb.configs) := by
  have hs := fwk_assert_success
  have key : ∀ n, 1 ≤ n ∧ n ≤ 8 → ∀ v : World, v.configs.length = 14 →
      ∃ s, (s = 9 ∨ s = 11) ∧ (s = 11 ↔ (n = 1 ∨ n = 5 ∨ n = 7 ∨ n = 8)) ∧
        pik_clock_get_element_table
            { status := FWK_SUCCESS, system_info := some { config_number := n } } module_id v
          = Outcome.returned (some pik_clock_element_table)
              { configs := resolved_from s 0 v.configs,
                trace := v.trace ++
                  Event.sid_query :: Event.read_config_number :: pass_events } := by
    intro n hn v hv
    have hcase : (n = 1 ∨ n = 5 ∨ n = 7 ∨ n = 8) ∨ (n = 2 ∨ n = 3 ∨ n = 4 ∨ n = 6) := by
      omega
    rcases hcase with h62 | h44
    · exact ⟨11, Or.inr rfl, by simp [h62],
        call_six_two _ module_id v n hs rfl h62 hv⟩
    · exact ⟨9, Or.inl rfl, by omega,
        call_four_four _ module_id v n hs rfl h44 hv⟩
  obtain ⟨sa, hsa, hga, hcalla⟩ := key a ha w hw
  obtain ⟨sb, hsb, hgb, hcallb⟩ := key b hb w hw
  have hwa : (resolved_from sa 0 w.configs).length = 14 := by
    rw [resolved_from_length]; exact hw
  obtain ⟨sb1, hsb1, hgb1, hcallab⟩ := key b hb
    { configs := resolved_from sa 0 w.configs,
      trace := w.trace ++ Event.sid_query :: Event.read_config_number :: pass_events } hwa
  have hsame : sb1 = sb := by omega
  subst hsame
  have habs := resolved_from_absorb sa sb1 hsa hsb w.configs hw
  have hsel : (if b = 1 ∨ b = 5 ∨ b = 7 ∨ b = 8 then 11 else 9) = sb1 := by
    by_cases hg : b = 1 ∨ b = 5 ∨ b = 7 ∨ b = 8
    · rw [if_pos hg]; exact (hgb.mpr hg).symm
    · rw [if_neg hg]
      rcases hsb with h9 | h11
      · exact h9.symm
      · exact absurd (hgb.mp h11) hg
  refine ⟨_, _, _, Event.sid_query :: Event.read_config_number :: pass_events,
    hcalla, hcallab, hcallb, habs, fun i => descriptor_congr _ _ habs i, ?_, rfl, ?_, ?_⟩
  · intro hgroup
    have : sa = sb1 := by omega
    subst this
    rfl
  · intro i h5 h12
    refine ⟨(store_in_pass_events i).mpr (by omega), ?_⟩
    obtain ⟨c, -, hc⟩ := descriptor_resolved_inside sb1 hsb w.configs
      (w.trace ++ Event.sid_query :: Event.read_config_number :: pass_events) [] hw i h5 h12
    rw [hsel]
    exact ⟨_, hc, rfl, rfl⟩
  · intro v hv hout hin
    obtain ⟨sv, hsv, hgv, hcallv⟩ := key b hb v hv
    have hsame : sv = sb1 := by omega
    subst hsame
    exact ⟨_, hcallv, resolved_from_same sv hsb w v hw hv hout hin⟩

theorem C17_last_resolution_wins_witness :
    (World.initial (2000 * FWK_MHZ)).configs.length = 14 ∧ (1 ≤ 3 ∧ 3 ≤ 8) ∧ (1 ≤ 7 ∧ 7 ≤ 8) ∧
    ∃ wa wab wb ev,
      pik_clock_get_element_table
          { status := FWK_SUCCESS, system_info := some { config_number := 3 } } 0
          (World.initial (2000 * FWK_MHZ))
        = Outcome.returned (some pik_clock_element_table) wa ∧
      pik_clock_get_element_table
          { status := FWK_SUCCESS, system_info := some { config_number := 7 } } 0 wa
        = Outcome.returned (some pik_clock_element_table) wab ∧
      pik_clock_get_element_table
          { status := FWK_SUCCESS, system_info := some { config_number := 7 } } 0
          (World.initial (2000 * FWK_MHZ))
        = Outcome.returned (some pik_clock_element_table) wb ∧
      wab.configs = wb.configs ∧
      (∀ i, wab.descriptor i = wb.descriptor i) ∧
      (((3 = 1 ∨ 3 = 5 ∨ 3 = 7 ∨ 3 = 8) ∧ (7 = 1 ∨ 7 = 5 ∨ 7 = 7 ∨ 7 = 8)) ∨
        ((3 = 2 ∨ 3 = 3 ∨ 3 = 4 ∨ 3 = 6) ∧ (7 = 2 ∨ 7 = 3 ∨ 7 = 4 ∨ 7 = 6)) →
        wa.configs = wb.configs) ∧
      wb.trace = (World.initial (2000 * FWK_MHZ)).trace ++ ev ∧
      (∀ i, 5 ≤ i → i ≤ 12 →
        Event.store i ∈ ev ∧
        ∃ c, wb.descriptor i = some c ∧ c.rate_count = 1 ∧
          c.rate_table = some
            (if i < (if 7 = 1 ∨ 7 = 5 ∨ 7 = 7 ∨ 7 = 8 then 11 else 9)
              then RateTablePtr.rate_table_cpu_a55
              else RateTablePtr.rate_table_cpu_a75)) ∧
      (∀ v : World, v.configs.length = 14 →
        (∀ i, i < 5 ∨ 12 < i →
          v.descriptor i = (World.initial (2000 * FWK_MHZ)).descriptor i) →
        (∀ i, 5 ≤ i → i ≤ 12 →
          ∃ c d, (World.initial (2000 * FWK_MHZ)).descriptor i = some c ∧
            v.descriptor i = some d ∧
            d.type = c.type ∧ d.is_group_member = c.is_group_member ∧
            d.control_reg = c.control_reg ∧ d.modulator_reg = c.modulator_reg ∧
            d.divsys_reg = c.divsys_reg ∧ d.divext_reg = c.divext_reg ∧
            d.initial_rate = c.initial_rate ∧
            d.defer_initialization = c.defer_initialization) →
        ∃ wv,
          pik_clock_get_element_table
              { status := FWK_SUCCESS, system_info := some { config_number := 7 } } 0 v
            = Outcome.returned (some pik_clock_element_table) wv ∧
          wv.configs = wb.configs) :=
  ⟨by decide, by decide, by decide,
    C17_last_resolution_wins 0 (World.initial (2000 * FWK_MHZ)) 3 7
      (by decide) (by decide) (by decide)⟩

/-- C18: for any configuration number and any state holding the 14 config
objects, the call returns: it does not end in an invalid access. The stores
it logs go to config objects 5..12, all existing. The
elements 5..12 lie before the termination description of the 15-entry table
and their data pointers point at config objects. A loop uses its body at the
indices from first to limit - 1 only, and the four loops of the accessor have
5 <= first and limit <= 13. -/
theorem C18_accesses_are_valid (module_id : fwk_id_t) (w : World)
    (n : Nat) (hw : w.configs.length = 14) :
    (∃ t w1 ev,
      pik_clock_get_element_table
          { status := FWK_SUCCESS, system_info := some { config_number := n } } module_id w
        = Outcome.returned t w1 ∧
      w1.trace = w.trace ++ ev ∧
      ∀ p, Event.store p ∈ ev → 5 ≤ p ∧ p ≤ 12 ∧ p < w.configs.length) ∧
    (∀ i, 5 ≤ i → i ≤ 12 →
      i < 15 ∧ i + 1 < pik_clock_element_table.length ∧
      ∃ e p, pik_clock_element_table[i]? = some e ∧ e.data = some p ∧
        (w.configs[p]?).isSome = true) ∧
    (∀ (first limit : Nat) (body body1 : Nat → World → Except World World),
      (∀ i v, first ≤ i → i < limit → body i v = body1 i v) →
      ∀ v, for_loop first limit body v = for_loop first limit body1 v) ∧
    (∀ tbl cnt,
      (∃ v, for_loop 5 11 (rebind tbl cnt) w = Except.ok v) ∧
      (∃ v, for_loop 11 13 (rebind tbl cnt) w = Except.ok v) ∧
      (∃ v, for_loop 5 9 (rebind tbl cnt) w = Except.ok v) ∧
      (∃ v, for_loop 9 13 (rebind tbl cnt) w = Except.ok v)) := by
  have hs := fwk_assert_success
  refine ⟨?_, ?_, ?_, ?_⟩
  · have hstores : ∀ p, Event.store p ∈
        Event.sid_query :: Event.read_config_number :: pass_events →
        5 ≤ p ∧ p ≤ 12 ∧ p < w.configs.length := by
      intro p hp
      have := (store_in_pass_events p).mp hp
      omega
    have hcase : (n = 0 ∨ 9 ≤ n) ∨ (n = 1 ∨ n = 5 ∨ n = 7 ∨ n = 8) ∨
        (n = 2 ∨ n = 3 ∨ n = 4 ∨ n = 6) := by omega
    rcases hcase with h0 | h62 | h44
    · refine ⟨_, _, [Event.sid_query, Event.read_config_number],
        call_unsupported _ module_id w n hs rfl h0, ?_, ?_⟩
      · simp [World.log]
      · intro p hp
        simp at hp
    · exact ⟨_, _, _, call_six_two _ module_id w n hs rfl h62 hw, rfl, hstores⟩
    · exact ⟨_, _, _, call_four_four _ module_id w n hs rfl h44 hw, rfl,
        hstores⟩
  · intro i h5 h12
    obtain ⟨c0, c1, c2, c3, c4, c5, c6, c7, c8, c9, c10, c11, c12, c13, hcs⟩ :=
      length_fourteen w.configs hw
    interval_cases i <;> simp [pik_clock_element_table, hcs]
  · intro first limit body body1 h v
    unfold for_loop
    exact for_iterations_congr body body1 (limit - first) first
      (fun i x h1 h2 => h i x h1 (by omega)) v
  · intro tbl cnt
    obtain ⟨cs, tr⟩ := w
    obtain ⟨c0, c1, c2, c3, c4, c5, c6, c7, c8, c9, c10, c11, c12, c13, rfl⟩ :=
      length_fourteen cs hw
    refine ⟨?_, ?_, ?_, ?_⟩ <;>
      simp [for_loop, for_iterations, rebind, World.store, pik_clock_element_table]

theorem C18_accesses_are_valid_witness :
    (World.initial (2000 * FWK_MHZ)).configs.length = 14 ∧
    (∃ t w1 ev,
      pik_clock_get_element_table
          { status := FWK_SUCCESS, system_info := some { config_number := 5 } } 0
          (World.initial (2000 * FWK_MHZ))
        = Outcome.returned t w1 ∧
      w1.trace = (World.initial (2000 * FWK_MHZ)).trace ++ ev ∧
      ∀ p, Event.store p ∈ ev →
        5 ≤ p ∧ p ≤ 12 ∧ p < (World.initial (2000 * FWK_MHZ)).configs.length) ∧
    (∀ i, 5 ≤ i → i ≤ 12 →
      i < 15 ∧ i + 1 < pik_clock_element_table.length ∧
      ∃ e p, pik_clock_element_table[i]? = some e ∧ e.data = some p ∧
        ((World.initial (2000 * FWK_MHZ)).configs[p]?).isSome = true) ∧
    (∀ (first limit : Nat) (body body1 : Nat → World → Except World World),
      (∀ i v, first ≤ i → i < limit → body i v = body1 i v) →
      ∀ v, for_loop first limit body v = for_loop first limit body1 v) ∧
    (∀ tbl cnt,
      (∃ v, for_loop 5 11 (rebind tbl cnt) (World.initial (2000 * FWK_MHZ)) = Except.ok v) ∧
      (∃ v, for_loop 11 13 (rebind tbl cnt) (World.initial (2000 * FWK_MHZ)) = Except.ok v) ∧
      (∃ v, for_loop 5 9 (rebind tbl cnt) (World.initial (2000 * FWK_MHZ)) = Except.ok v) ∧
      (∃ v, for_loop 9 13 (rebind tbl cnt) (World.initial (2000 * FWK_MHZ)) = Except.ok v)) :=
  ⟨by decide,
    C18_accesses_are_valid 0 (World.initial (2000 * FWK_MHZ)) 5 (by decide)⟩

end PikClock
